import Mathlib

/-!
# Verification of the pressure hysteresis monitor (`demo.py`)

Shallow embedding of the `Pressure` monitor class of `demo.py`.

Modelling decisions, each traceable to the source:

* An input record (a CSV row) is a structure `Event` with the three fields the
  monitor reads: `'ID'`, `'Tipo Grandezza'` and `'Valore'`.  The Python code
  converts the textual `'Valore'` with `float(...)`; values are modelled as
  rationals `ℚ` (the idealisation of the numeric value, conversion being the
  ingestion collaborator's concern per the specification).
* The five dictionaries `low_counts`, `high_counts`, `up_counts`,
  `down_counts`, `prev_value` are *class-level* attributes of `Pressure`
  (lines 9–13 of `demo.py`); `__init__` (lines 18–23) assigns only the scalar
  thresholds on the instance.  The embedding therefore separates the shared
  mutable class state (`PressureState`, passed and returned explicitly) from
  the per-instance immutable configuration (`Pressure`).  Counter dictionaries
  are read with `.get(id, 0)` and prev with `.get(id, None)`, so they are
  modelled as total functions with those defaults.
* `transition` is a sequence of guarded blocks; `return error(...)` aborts the
  remaining blocks.  This early exit is modelled with `andThen`: a check
  returns `(state, some violation)` to stop, `(state, none)` to continue.
* Python truthiness: the guards of the rate checks test `prev and ...`; a
  stored previous value of `0.0` is falsy, so those guards require the stored
  value to be present *and* nonzero.
-/

/-- One input record, restricted to the fields `Pressure.transition` reads:
`event['ID']`, `event['Tipo Grandezza']` and `float(event['Valore'])`. -/
structure Event where
  id : String
  tipoGrandezza : String
  valore : ℚ
deriving DecidableEq

/-- The measurement kind the monitor filters on (line 25 of `demo.py`). -/
def monitoredKind : String := "Pressione a valle"

/-- The shared class-level state of `Pressure` (lines 9–13 of `demo.py`):
five dictionaries keyed by entity id.  Counter dictionaries are read via
`.get(pdm_id, 0)`, hence total functions defaulting to `0`; `prev_value` is
read via `.get(event['ID'], None)`, hence `Option ℚ` defaulting to `none`. -/
structure PressureState where
  low_counts : String → ℕ
  high_counts : String → ℕ
  up_counts : String → ℕ
  down_counts : String → ℕ
  prev_value : String → Option ℚ

/-- The state at class definition time: all dictionaries empty. -/
def PressureState.initial : PressureState :=
  ⟨fun _ => 0, fun _ => 0, fun _ => 0, fun _ => 0, fun _ => none⟩

/-- Pointwise dictionary update `d[k] = v`. -/
def upd {α : Type} (f : String → α) (k : String) (v : α) : String → α :=
  fun x => if x = k then v else f x

/-- The per-instance configuration set by `Pressure.__init__`
(lines 18–23 of `demo.py`): only the four thresholds. -/
structure Pressure where
  LOW : ℚ
  HIGH : ℚ
  MAX_DELTA : ℚ
  MAX_UNSAFE : ℕ

/-- `Pressure(low, high, max_delta, max_unsafe)` — the constructor assigns the
four scalar thresholds and nothing else; in particular it creates no fresh
dictionaries (the five dictionaries live on the class, not the instance). -/
def mkPressure (low high max_delta : ℚ) ( max_unsafe : ℕ) : Pressure :=
  ⟨low, high, max_delta, max_unsafe⟩

/-- The reporting period (`FREQ = 15`, line 17 of `demo.py`); violation
messages report `count * FREQ` minutes. -/
def FREQ : ℕ := 15

/-- Which of the four conditions a violation reports
("too high" / "too low" / "increased too fast" / "decreased too fast"). -/
inductive Cond : Type
  | high
  | low
  | rising
  | falling
deriving DecidableEq

/-- A violation signal: the `error(...)` value returned by `transition`,
carrying the entity id, the condition kind, and the streak count `count`
(the message reports `count * FREQ` minutes). -/
structure Violation where
  id : String
  cond : Cond
  streak : ℕ
deriving DecidableEq

/-- Early-exit composition: a `return error(...)` in a block of
`transition` skips the remaining blocks. -/
def andThen (r : PressureState × Option Violation)
    (f : PressureState → PressureState × Option Violation) :
    PressureState × Option Violation :=
  match r with
  | (s, some v) => (s, some v)
  | (s, none) => f s

/-- First block (lines 29–38): too high.  If `float(value) > HIGH`, increment
`high_counts[pdm_id]`; if the new count exceeds `MAX_UNSAFE` return an error,
otherwise reset `low_counts[pdm_id]` to 0. -/
def highCheck (m : Pressure) (e : Event) (s : PressureState) :
    PressureState × Option Violation :=
  if e.valore > m.HIGH then
    let count := s.high_counts e.id + 1
    let s' := { s with high_counts := upd s.high_counts e.id count }
    if count > m.MAX_UNSAFE then
      (s', some ⟨e.id, Cond.high, count⟩)
    else
      ({ s' with low_counts := upd s'.low_counts e.id 0 }, none)
  else (s, none)

/-- Second block (lines 39–49): too low.  If `float(value) < LOW`, increment
`low_counts[pdm_id]`; if the new count exceeds `MAX_UNSAFE` return an error,
otherwise re-store the count (line 48, a no-op) and reset
`high_counts[pdm_id]` to 0. -/
def lowCheck (m : Pressure) (e : Event) (s : PressureState) :
    PressureState × Option Violation :=
  if e.valore < m.LOW then
    let count := s.low_counts e.id + 1
    let s' := { s with low_counts := upd s.low_counts e.id count }
    if count > m.MAX_UNSAFE then
      (s', some ⟨e.id, Cond.low, count⟩)
    else
      ({ s' with low_counts := upd s'.low_counts e.id count,
                 high_counts := upd s'.high_counts e.id 0 }, none)
  else (s, none)

/-- Third block (lines 50–58): rising too fast.  The guard is
`prev and float(value) - prev > MAX_DELTA`; `prev` is tested for Python
truthiness, so it must be present **and** nonzero. -/
def risingCheck (m : Pressure) (e : Event) (prev : Option ℚ)
    (s : PressureState) : PressureState × Option Violation :=
  match prev with
  | some p =>
    if p ≠ 0 ∧ e.valore - p > m.MAX_DELTA then
      let count := s.up_counts e.id + 1
      let s' := { s with up_counts := upd s.up_counts e.id count }
      if count > m.MAX_UNSAFE then
        (s', some ⟨e.id, Cond.rising, count⟩)
      else
        ({ s' with down_counts := upd s'.down_counts e.id 0 }, none)
    else (s, none)
  | none => (s, none)

/-- Fourth block (lines 59–67): falling too fast.  The guard is
`prev and prev - float(value) > MAX_DELTA` (truthiness again). -/
def fallingCheck (m : Pressure) (e : Event) (prev : Option ℚ)
    (s : PressureState) : PressureState × Option Violation :=
  match prev with
  | some p =>
    if p ≠ 0 ∧ p - e.valore > m.MAX_DELTA then
      let count := s.down_counts e.id + 1
      let s' := { s with down_counts := upd s.down_counts e.id count }
      if count > m.MAX_UNSAFE then
        (s', some ⟨e.id, Cond.falling, count⟩)
      else
        ({ s' with up_counts := upd s'.up_counts e.id 0 }, none)
    else (s, none)
  | none => (s, none)

/-- Fifth block (lines 68–72): stability reset.  If
`prev and abs(float(value) - prev) <= MAX_DELTA`, reset both rate counters. -/
def stabilityCheck (m : Pressure) (e : Event) (prev : Option ℚ)
    (s : PressureState) : PressureState × Option Violation :=
  match prev with
  | some p =>
    if p ≠ 0 ∧ |e.valore - p| ≤ m.MAX_DELTA then
      ({ s with up_counts := upd s.up_counts e.id 0,
                down_counts := upd s.down_counts e.id 0 }, none)
    else (s, none)
  | none => (s, none)

/-- Sixth block (lines 73–77): safe-band reset.  If
`float(value) > LOW and float(value) < HIGH`, reset both level counters. -/
def safeBandCheck (m : Pressure) (e : Event) (s : PressureState) :
    PressureState × Option Violation :=
  if e.valore > m.LOW ∧ e.valore < m.HIGH then
    ({ s with high_counts := upd s.high_counts e.id 0,
              low_counts := upd s.low_counts e.id 0 }, none)
  else (s, none)

/-- `Pressure.transition` (lines 24–77 of `demo.py`).  Records of another
measurement kind are dropped with no state change (lines 25–26); otherwise
`prev` is captured, `prev_value[event['ID']]` is overwritten with the current
value *before* the six blocks run, and the blocks run in order with early
exit on the first `error`. -/
def transition (m : Pressure) (s : PressureState) (e : Event) :
    PressureState × Option Violation :=
  if e.tipoGrandezza ≠ monitoredKind then (s, none)
  else
    let prev := s.prev_value e.id
    let s₁ := { s with prev_value := upd s.prev_value e.id (some e.valore) }
    andThen (highCheck m e s₁) (fun t =>
      andThen (lowCheck m e t) (fun t =>
        andThen (risingCheck m e prev t) (fun t =>
          andThen (fallingCheck m e prev t) (fun t =>
            andThen (stabilityCheck m e prev t) (fun t =>
              safeBandCheck m e t)))))

/-- The six blocks of `Pressure.transition` after the kind filter and the
`prev_value` update, as a function of the captured `prev` and the current
state: this is exactly the chain `transition` runs (see
`transition_checksFrom`); naming it lets the block structure be analysed one
block at a time. -/
def checksFrom (m : Pressure) (e : Event) (prev : Option ℚ)
    (t : PressureState) : PressureState × Option Violation :=
  andThen (highCheck m e t) (fun t =>
    andThen (lowCheck m e t) (fun t =>
      andThen (risingCheck m e prev t) (fun t =>
        andThen (fallingCheck m e prev t) (fun t =>
          andThen (stabilityCheck m e prev t) (fun t =>
            safeBandCheck m e t)))))

/-- Run the monitor over a list of records, keeping only the final state
(the harness's `monitor.eval(event)` loop, lines 128–136 of `demo.py`). -/
def run (m : Pressure) (s : PressureState) : List Event → PressureState
  | [] => s
  | e :: es => run m (transition m s e).1 es

/-- Run the monitor over a list of records, collecting the per-record
verdicts (one `Option Violation` per record, in order). -/
def runLog (m : Pressure) (s : PressureState) :
    List Event → List (Option Violation)
  | [] => []
  | e :: es => (transition m s e).2 :: runLog m (transition m s e).1 es

/-- A monitored-kind record for entity `i` with value `v`. -/
def ev (i : String) (v : ℚ) : Event := ⟨i, monitoredKind, v⟩

/-- The two states agree, for entity `i`, on all four streak counters and on
the previous value. -/
def sameAt (i : String) (t u : PressureState) : Prop :=
  t.high_counts i = u.high_counts i ∧
  t.low_counts i = u.low_counts i ∧
  t.up_counts i = u.up_counts i ∧
  t.down_counts i = u.down_counts i ∧
  t.prev_value i = u.prev_value i

/-- The two states have identical level-streak dictionaries
(`high_counts` and `low_counts`). -/
def sameLevel (t u : PressureState) : Prop :=
  t.high_counts = u.high_counts ∧ t.low_counts = u.low_counts

/-- The two states have identical rate-streak dictionaries
(`up_counts` and `down_counts`). -/
def sameRate (t u : PressureState) : Prop :=
  t.up_counts = u.up_counts ∧ t.down_counts = u.down_counts

/-- Both level streak counters of entity `i` are zero. -/
def levelZeroAt (i : String) (t : PressureState) : Prop :=
  t.high_counts i = 0 ∧ t.low_counts i = 0

/-- A counter value that a violation-free evaluation can produce from a
starting value `x`: either it never exceeded the tolerance, or it is still
the untouched starting value. -/
def cntOk (m : Pressure) (x n : ℕ) : Prop :=
  n ≤ m.MAX_UNSAFE ∨ n = x

/-- All four counters of entity `i` are `cntOk` with respect to the four
starting values. -/
def cntOkAll (m : Pressure) (i : String) (t u : PressureState) : Prop :=
  cntOk m (t.high_counts i) (u.high_counts i) ∧
  cntOk m (t.low_counts i) (u.low_counts i) ∧
  cntOk m (t.up_counts i) (u.up_counts i) ∧
  cntOk m (t.down_counts i) (u.down_counts i)

/-- Monitor configurations used in the concrete scenarios below. -/
def mA : Pressure := mkPressure 10 100 1 0

/-- Configuration with a large `MAX_DELTA`, so only level checks can fire. -/
def mB : Pressure := mkPressure 10 100 1000 1

/-- A second, separately constructed monitor instance with the same
thresholds as `mB` (a second `Pressure(...)` call in the Python code). -/
def mB2 : Pressure := mkPressure 10 100 1000 1

/-- Configuration whose safe band contains `0`, used to store a previous
value of `0.0`. -/
def mC : Pressure := mkPressure (-1000) 1000 1 3

/- ## Helper lemmas -/

theorem upd_same {α : Type} (f : String → α) (k : String) (v : α) :
    upd f k v k = v := by
  simp [upd]

theorem upd_other {α : Type} (f : String → α) (k i : String) (v : α)
    (h : i ≠ k) : upd f k v i = f i := by
  simp [upd, h]

theorem andThen_stop {r : PressureState × Option Violation}
    {f : PressureState → PressureState × Option Violation} {v : Violation}
    (h : r.2 = some v) : andThen r f = r := by
  obtain ⟨s, o⟩ := r
  cases o <;> simp_all [andThen]

theorem andThen_go {r : PressureState × Option Violation}
    {f : PressureState → PressureState × Option Violation}
    (h : r.2 = none) : andThen r f = f r.1 := by
  obtain ⟨s, o⟩ := r
  cases o <;> simp_all [andThen]

theorem andThen_none (t : PressureState)
    (f : PressureState → PressureState × Option Violation) :
    andThen (t, none) f = f t := rfl

theorem andThen_some (t : PressureState) (v : Violation)
    (f : PressureState → PressureState × Option Violation) :
    andThen (t, some v) f = (t, some v) := rfl

theorem upd_upd {α : Type} (f : String → α) (k : String) (a b : α) :
    upd (upd f k a) k b = upd f k b := by
  funext x
  simp only [upd]
  split_ifs <;> rfl

/-- Early-exit composition preserves a state invariant that every later
check preserves. -/
theorem andThen_inv (P : PressureState → Prop)
    {r : PressureState × Option Violation}
    {f : PressureState → PressureState × Option Violation}
    (hr : P r.1) (hf : ∀ t, P t → P ((f t).1)) : P ((andThen r f).1) := by
  obtain ⟨s, o⟩ := r
  cases o
  · exact hf s hr
  · exact hr

/-- Early-exit composition preserves a transitive binary relation on states
that every later check preserves. -/
theorem andThen_rel (R : PressureState → PressureState → Prop)
    (hT : ∀ {a b c : PressureState}, R a b → R b c → R a c)
    {u : PressureState} {r : PressureState × Option Violation}
    {f : PressureState → PressureState × Option Violation}
    (hr : R r.1 u) (hf : ∀ t, R ((f t).1) t) : R ((andThen r f).1) u := by
  obtain ⟨s, o⟩ := r
  cases o
  · exact hT (hf s) hr
  · exact hr

/- ### Characterisations of the six blocks -/

theorem highCheck_skip (m : Pressure) (e : Event) (s : PressureState)
    (h : ¬ e.valore > m.HIGH) : highCheck m e s = (s, none) := by
  simp [highCheck, h]

theorem highCheck_emit (m : Pressure) (e : Event) (s : PressureState)
    (h1 : e.valore > m.HIGH) (h2 : s.high_counts e.id + 1 > m.MAX_UNSAFE) :
    highCheck m e s =
      ({ s with high_counts := upd s.high_counts e.id (s.high_counts e.id + 1) },
        some ⟨e.id, Cond.high, s.high_counts e.id + 1⟩) := by
  simp [highCheck, h1, h2]

theorem highCheck_inc (m : Pressure) (e : Event) (s : PressureState)
    (h1 : e.valore > m.HIGH) (h2 : ¬ s.high_counts e.id + 1 > m.MAX_UNSAFE) :
    highCheck m e s =
      ({ s with high_counts := upd s.high_counts e.id (s.high_counts e.id + 1),
                low_counts := upd s.low_counts e.id 0 }, none) := by
  simp [highCheck, h1, h2]

theorem lowCheck_skip (m : Pressure) (e : Event) (s : PressureState)
    (h : ¬ e.valore < m.LOW) : lowCheck m e s = (s, none) := by
  simp [lowCheck, h]

theorem lowCheck_emit (m : Pressure) (e : Event) (s : PressureState)
    (h1 : e.valore < m.LOW) (h2 : s.low_counts e.id + 1 > m.MAX_UNSAFE) :
    lowCheck m e s =
      ({ s with low_counts := upd s.low_counts e.id (s.low_counts e.id + 1) },
        some ⟨e.id, Cond.low, s.low_counts e.id + 1⟩) := by
  simp [lowCheck, h1, h2]

theorem lowCheck_inc (m : Pressure) (e : Event) (s : PressureState)
    (h1 : e.valore < m.LOW) (h2 : ¬ s.low_counts e.id + 1 > m.MAX_UNSAFE) :
    lowCheck m e s =
      ({ s with low_counts := upd s.low_counts e.id (s.low_counts e.id + 1),
                high_counts := upd s.high_counts e.id 0 }, none) := by
  simp [lowCheck, h1, h2, upd_upd]

theorem risingCheck_none (m : Pressure) (e : Event) (s : PressureState) :
    risingCheck m e none s = (s, none) := rfl

theorem risingCheck_skip (m : Pressure) (e : Event) (p : ℚ)
    (s : PressureState) (h : ¬ (p ≠ 0 ∧ e.valore - p > m.MAX_DELTA)) :
    risingCheck m e (some p) s = (s, none) := by
  simp only [risingCheck, if_neg h]

theorem risingCheck_emit (m : Pressure) (e : Event) (p : ℚ)
    (s : PressureState) (h0 : p ≠ 0) (hd : e.valore - p > m.MAX_DELTA)
    (h2 : s.up_counts e.id + 1 > m.MAX_UNSAFE) :
    risingCheck m e (some p) s =
      ({ s with up_counts := upd s.up_counts e.id (s.up_counts e.id + 1) },
        some ⟨e.id, Cond.rising, s.up_counts e.id + 1⟩) := by
  simp [risingCheck, h0, hd, h2]

theorem risingCheck_inc (m : Pressure) (e : Event) (p : ℚ)
    (s : PressureState) (h0 : p ≠ 0) (hd : e.valore - p > m.MAX_DELTA)
    (h2 : ¬ s.up_counts e.id + 1 > m.MAX_UNSAFE) :
    risingCheck m e (some p) s =
      ({ s with up_counts := upd s.up_counts e.id (s.up_counts e.id + 1),
                down_counts := upd s.down_counts e.id 0 }, none) := by
  simp [risingCheck, h0, hd, h2]

theorem fallingCheck_none (m : Pressure) (e : Event) (s : PressureState) :
    fallingCheck m e none s = (s, none) := rfl

theorem fallingCheck_skip (m : Pressure) (e : Event) (p : ℚ)
    (s : PressureState) (h : ¬ (p ≠ 0 ∧ p - e.valore > m.MAX_DELTA)) :
    fallingCheck m e (some p) s = (s, none) := by
  simp only [fallingCheck, if_neg h]

theorem fallingCheck_emit (m : Pressure) (e : Event) (p : ℚ)
    (s : PressureState) (h0 : p ≠ 0) (hd : p - e.valore > m.MAX_DELTA)
    (h2 : s.down_counts e.id + 1 > m.MAX_UNSAFE) :
    fallingCheck m e (some p) s =
      ({ s with down_counts := upd s.down_counts e.id (s.down_counts e.id + 1) },
        some ⟨e.id, Cond.falling, s.down_counts e.id + 1⟩) := by
  simp [fallingCheck, h0, hd, h2]

theorem fallingCheck_inc (m : Pressure) (e : Event) (p : ℚ)
    (s : PressureState) (h0 : p ≠ 0) (hd : p - e.valore > m.MAX_DELTA)
    (h2 : ¬ s.down_counts e.id + 1 > m.MAX_UNSAFE) :
    fallingCheck m e (some p) s =
      ({ s with down_counts := upd s.down_counts e.id (s.down_counts e.id + 1),
                up_counts := upd s.up_counts e.id 0 }, none) := by
  simp [fallingCheck, h0, hd, h2]

theorem stabilityCheck_none (m : Pressure) (e : Event) (s : PressureState) :
    stabilityCheck m e none s = (s, none) := rfl

theorem stabilityCheck_skip (m : Pressure) (e : Event) (p : ℚ)
    (s : PressureState) (h : ¬ (p ≠ 0 ∧ |e.valore - p| ≤ m.MAX_DELTA)) :
    stabilityCheck m e (some p) s = (s, none) := by
  simp only [stabilityCheck, if_neg h]

theorem stabilityCheck_fire (m : Pressure) (e : Event) (p : ℚ)
    (s : PressureState) (h0 : p ≠ 0) (hd : |e.valore - p| ≤ m.MAX_DELTA) :
    stabilityCheck m e (some p) s =
      ({ s with up_counts := upd s.up_counts e.id 0,
                down_counts := upd s.down_counts e.id 0 }, none) := by
  simp [stabilityCheck, h0, hd]

theorem safeBandCheck_skip (m : Pressure) (e : Event) (s : PressureState)
    (h : ¬ (e.valore > m.LOW ∧ e.valore < m.HIGH)) :
    safeBandCheck m e s = (s, none) := by
  simp only [safeBandCheck, if_neg h]

theorem safeBandCheck_fire (m : Pressure) (e : Event) (s : PressureState)
    (h : e.valore > m.LOW ∧ e.valore < m.HIGH) :
    safeBandCheck m e s =
      ({ s with high_counts := upd s.high_counts e.id 0,
                low_counts := upd s.low_counts e.id 0 }, none) := by
  simp [safeBandCheck, h]

/- ### Per-block frame facts -/

/-- The level blocks never touch the rate dictionaries. -/
theorem highCheck_rate (m : Pressure) (e : Event) (s : PressureState) :
    sameRate ((highCheck m e s).1) s := by
  simp only [highCheck]
  split_ifs <;> simp [sameRate]

theorem lowCheck_rate (m : Pressure) (e : Event) (s : PressureState) :
    sameRate ((lowCheck m e s).1) s := by
  simp only [lowCheck]
  split_ifs <;> simp [sameRate]

theorem safeBandCheck_rate (m : Pressure) (e : Event) (s : PressureState) :
    sameRate ((safeBandCheck m e s).1) s := by
  simp only [safeBandCheck]
  split_ifs <;> simp [sameRate]

/-- The rate blocks never touch the level dictionaries. -/
theorem risingCheck_level (m : Pressure) (e : Event) (p : Option ℚ)
    (s : PressureState) : sameLevel ((risingCheck m e p s).1) s := by
  rcases p with _ | p <;> simp only [risingCheck]
  · simp [sameLevel]
  · split_ifs <;> simp [sameLevel]

theorem fallingCheck_level (m : Pressure) (e : Event) (p : Option ℚ)
    (s : PressureState) : sameLevel ((fallingCheck m e p s).1) s := by
  rcases p with _ | p <;> simp only [fallingCheck]
  · simp [sameLevel]
  · split_ifs <;> simp [sameLevel]

theorem stabilityCheck_level (m : Pressure) (e : Event) (p : Option ℚ)
    (s : PressureState) : sameLevel ((stabilityCheck m e p s).1) s := by
  rcases p with _ | p <;> simp only [stabilityCheck]
  · simp [sameLevel]
  · split_ifs <;> simp [sameLevel]

theorem sameLevel_trans {t u w : PressureState}
    (h1 : sameLevel t u) (h2 : sameLevel u w) : sameLevel t w :=
  ⟨h1.1.trans h2.1, h1.2.trans h2.2⟩

theorem sameRate_trans {t u w : PressureState}
    (h1 : sameRate t u) (h2 : sameRate u w) : sameRate t w :=
  ⟨h1.1.trans h2.1, h1.2.trans h2.2⟩

/- ### Inversion lemmas: reading a block's outcome off its result -/

theorem andThen_none_inv {r : PressureState × Option Violation}
    {f : PressureState → PressureState × Option Violation}
    (h : (andThen r f).2 = none) :
    r.2 = none ∧ andThen r f = f r.1 := by
  obtain ⟨s, o⟩ := r
  cases o
  · exact ⟨rfl, rfl⟩
  · exact absurd h (by simp [andThen])

theorem andThen_some_inv {r : PressureState × Option Violation}
    {f : PressureState → PressureState × Option Violation} {v : Violation}
    (h : (andThen r f).2 = some v) :
    (r.2 = some v ∧ andThen r f = r) ∨ (r.2 = none ∧ andThen r f = f r.1) := by
  obtain ⟨s, o⟩ := r
  cases o
  · exact Or.inr ⟨rfl, rfl⟩
  · exact Or.inl ⟨by simpa [andThen] using h, rfl⟩

theorem highCheck_none_inv (m : Pressure) (e : Event) (s : PressureState)
    (hv : (highCheck m e s).2 = none) :
    (¬ e.valore > m.HIGH ∧ highCheck m e s = (s, none)) ∨
    (e.valore > m.HIGH ∧ s.high_counts e.id + 1 ≤ m.MAX_UNSAFE ∧
      highCheck m e s =
        ({ s with high_counts := upd s.high_counts e.id (s.high_counts e.id + 1),
                  low_counts := upd s.low_counts e.id 0 }, none)) := by
  by_cases h1 : e.valore > m.HIGH
  · by_cases h1e : s.high_counts e.id + 1 > m.MAX_UNSAFE
    · rw [highCheck_emit m e s h1 h1e] at hv
      exact absurd hv (by simp)
    · exact Or.inr ⟨h1, by omega, highCheck_inc m e s h1 h1e⟩
  · exact Or.inl ⟨h1, highCheck_skip m e s h1⟩

theorem highCheck_some_inv (m : Pressure) (e : Event) (s : PressureState)
    (v : Violation) (hv : (highCheck m e s).2 = some v) :
    e.valore > m.HIGH ∧ s.high_counts e.id + 1 > m.MAX_UNSAFE ∧
    v = ⟨e.id, Cond.high, s.high_counts e.id + 1⟩ ∧
    (highCheck m e s).1 =
      { s with high_counts := upd s.high_counts e.id (s.high_counts e.id + 1) } := by
  by_cases h1 : e.valore > m.HIGH
  · by_cases h1e : s.high_counts e.id + 1 > m.MAX_UNSAFE
    · rw [highCheck_emit m e s h1 h1e] at hv ⊢
      refine ⟨h1, h1e, ?_, rfl⟩
      simpa using hv.symm
    · rw [highCheck_inc m e s h1 h1e] at hv
      exact absurd hv (by simp)
  · rw [highCheck_skip m e s h1] at hv
    exact absurd hv (by simp)

theorem lowCheck_none_inv (m : Pressure) (e : Event) (s : PressureState)
    (hv : (lowCheck m e s).2 = none) :
    (¬ e.valore < m.LOW ∧ lowCheck m e s = (s, none)) ∨
    (e.valore < m.LOW ∧ s.low_counts e.id + 1 ≤ m.MAX_UNSAFE ∧
      lowCheck m e s =
        ({ s with low_counts := upd s.low_counts e.id (s.low_counts e.id + 1),
                  high_counts := upd s.high_counts e.id 0 }, none)) := by
  by_cases h2 : e.valore < m.LOW
  · by_cases h2e : s.low_counts e.id + 1 > m.MAX_UNSAFE
    · rw [lowCheck_emit m e s h2 h2e] at hv
      exact absurd hv (by simp)
    · exact Or.inr ⟨h2, by omega, lowCheck_inc m e s h2 h2e⟩
  · exact Or.inl ⟨h2, lowCheck_skip m e s h2⟩

theorem lowCheck_some_inv (m : Pressure) (e : Event) (s : PressureState)
    (v : Violation) (hv : (lowCheck m e s).2 = some v) :
    e.valore < m.LOW ∧ s.low_counts e.id + 1 > m.MAX_UNSAFE ∧
    v = ⟨e.id, Cond.low, s.low_counts e.id + 1⟩ ∧
    (lowCheck m e s).1 =
      { s with low_counts := upd s.low_counts e.id (s.low_counts e.id + 1) } := by
  by_cases h2 : e.valore < m.LOW
  · by_cases h2e : s.low_counts e.id + 1 > m.MAX_UNSAFE
    · rw [lowCheck_emit m e s h2 h2e] at hv ⊢
      refine ⟨h2, h2e, ?_, rfl⟩
      simpa using hv.symm
    · rw [lowCheck_inc m e s h2 h2e] at hv
      exact absurd hv (by simp)
  · rw [lowCheck_skip m e s h2] at hv
    exact absurd hv (by simp)

theorem risingCheck_none_inv (m : Pressure) (e : Event) (prev : Option ℚ)
    (s : PressureState) (hv : (risingCheck m e prev s).2 = none) :
    (risingCheck m e prev s = (s, none) ∧
      ∀ p, prev = some p → p ≠ 0 → ¬ e.valore - p > m.MAX_DELTA) ∨
    (∃ p, prev = some p ∧ p ≠ 0 ∧ e.valore - p > m.MAX_DELTA ∧
      s.up_counts e.id + 1 ≤ m.MAX_UNSAFE ∧
      risingCheck m e prev s =
        ({ s with up_counts := upd s.up_counts e.id (s.up_counts e.id + 1),
                  down_counts := upd s.down_counts e.id 0 }, none)) := by
  rcases prev with _ | p
  · exact Or.inl ⟨rfl, by simp⟩
  · by_cases hg : p ≠ 0 ∧ e.valore - p > m.MAX_DELTA
    · by_cases h3e : s.up_counts e.id + 1 > m.MAX_UNSAFE
      · rw [risingCheck_emit m e p s hg.1 hg.2 h3e] at hv
        exact absurd hv (by simp)
      · exact Or.inr ⟨p, rfl, hg.1, hg.2, by omega,
          risingCheck_inc m e p s hg.1 hg.2 h3e⟩
    · refine Or.inl ⟨risingCheck_skip m e p s hg, ?_⟩
      intro q hq hq0 hqd
      obtain rfl : p = q := by simpa using hq
      exact hg ⟨hq0, hqd⟩

theorem risingCheck_some_inv (m : Pressure) (e : Event) (prev : Option ℚ)
    (s : PressureState) (v : Violation)
    (hv : (risingCheck m e prev s).2 = some v) :
    (∃ p, prev = some p ∧ p ≠ 0 ∧ e.valore - p > m.MAX_DELTA) ∧
    s.up_counts e.id + 1 > m.MAX_UNSAFE ∧
    v = ⟨e.id, Cond.rising, s.up_counts e.id + 1⟩ ∧
    (risingCheck m e prev s).1 =
      { s with up_counts := upd s.up_counts e.id (s.up_counts e.id + 1) } := by
  rcases prev with _ | p
  · exact absurd hv (by simp [risingCheck_none])
  · by_cases hg : p ≠ 0 ∧ e.valore - p > m.MAX_DELTA
    · by_cases h3e : s.up_counts e.id + 1 > m.MAX_UNSAFE
      · rw [risingCheck_emit m e p s hg.1 hg.2 h3e] at hv ⊢
        refine ⟨⟨p, rfl, hg.1, hg.2⟩, h3e, ?_, rfl⟩
        simpa using hv.symm
      · rw [risingCheck_inc m e p s hg.1 hg.2 h3e] at hv
        exact absurd hv (by simp)
    · rw [risingCheck_skip m e p s hg] at hv
      exact absurd hv (by simp)

theorem fallingCheck_none_inv (m : Pressure) (e : Event) (prev : Option ℚ)
    (s : PressureState) (hv : (fallingCheck m e prev s).2 = none) :
    (fallingCheck m e prev s = (s, none) ∧
      ∀ p, prev = some p → p ≠ 0 → ¬ p - e.valore > m.MAX_DELTA) ∨
    (∃ p, prev = some p ∧ p ≠ 0 ∧ p - e.valore > m.MAX_DELTA ∧
      s.down_counts e.id + 1 ≤ m.MAX_UNSAFE ∧
      fallingCheck m e prev s =
        ({ s with down_counts := upd s.down_counts e.id (s.down_counts e.id + 1),
                  up_counts := upd s.up_counts e.id 0 }, none)) := by
  rcases prev with _ | p
  · exact Or.inl ⟨rfl, by simp⟩
  · by_cases hg : p ≠ 0 ∧ p - e.valore > m.MAX_DELTA
    · by_cases h4e : s.down_counts e.id + 1 > m.MAX_UNSAFE
      · rw [fallingCheck_emit m e p s hg.1 hg.2 h4e] at hv
        exact absurd hv (by simp)
      · exact Or.inr ⟨p, rfl, hg.1, hg.2, by omega,
          fallingCheck_inc m e p s hg.1 hg.2 h4e⟩
    · refine Or.inl ⟨fallingCheck_skip m e p s hg, ?_⟩
      intro q hq hq0 hqd
      obtain rfl : p = q := by simpa using hq
      exact hg ⟨hq0, hqd⟩

theorem fallingCheck_some_inv (m : Pressure) (e : Event) (prev : Option ℚ)
    (s : PressureState) (v : Violation)
    (hv : (fallingCheck m e prev s).2 = some v) :
    (∃ p, prev = some p ∧ p ≠ 0 ∧ p - e.valore > m.MAX_DELTA) ∧
    s.down_counts e.id + 1 > m.MAX_UNSAFE ∧
    v = ⟨e.id, Cond.falling, s.down_counts e.id + 1⟩ ∧
    (fallingCheck m e prev s).1 =
      { s with down_counts := upd s.down_counts e.id (s.down_counts e.id + 1) } := by
  rcases prev with _ | p
  · exact absurd hv (by simp [fallingCheck_none])
  · by_cases hg : p ≠ 0 ∧ p - e.valore > m.MAX_DELTA
    · by_cases h4e : s.down_counts e.id + 1 > m.MAX_UNSAFE
      · rw [fallingCheck_emit m e p s hg.1 hg.2 h4e] at hv ⊢
        refine ⟨⟨p, rfl, hg.1, hg.2⟩, h4e, ?_, rfl⟩
        simpa using hv.symm
      · rw [fallingCheck_inc m e p s hg.1 hg.2 h4e] at hv
        exact absurd hv (by simp)
    · rw [fallingCheck_skip m e p s hg] at hv
      exact absurd hv (by simp)

/-- The stability block never emits. -/
theorem stabilityCheck_snd (m : Pressure) (e : Event) (prev : Option ℚ)
    (s : PressureState) : (stabilityCheck m e prev s).2 = none := by
  rcases prev with _ | p
  · rfl
  · simp only [stabilityCheck]
    split_ifs <;> rfl

/-- The stability block either resets both rate counters or does nothing. -/
theorem stabilityCheck_cases (m : Pressure) (e : Event) (prev : Option ℚ)
    (s : PressureState) :
    stabilityCheck m e prev s = (s, none) ∨
    stabilityCheck m e prev s =
      ({ s with up_counts := upd s.up_counts e.id 0,
                down_counts := upd s.down_counts e.id 0 }, none) := by
  rcases prev with _ | p
  · exact Or.inl rfl
  · by_cases hg : p ≠ 0 ∧ |e.valore - p| ≤ m.MAX_DELTA
    · exact Or.inr (stabilityCheck_fire m e p s hg.1 hg.2)
    · exact Or.inl (stabilityCheck_skip m e p s hg)

/-- The safe-band block never emits. -/
theorem safeBandCheck_snd (m : Pressure) (e : Event) (s : PressureState) :
    (safeBandCheck m e s).2 = none := by
  simp only [safeBandCheck]
  split_ifs <;> rfl

/-- The safe-band block either resets both level counters or does nothing. -/
theorem safeBandCheck_cases (m : Pressure) (e : Event) (s : PressureState) :
    safeBandCheck m e s = (s, none) ∨
    safeBandCheck m e s =
      ({ s with high_counts := upd s.high_counts e.id 0,
                low_counts := upd s.low_counts e.id 0 }, none) := by
  by_cases hg : e.valore > m.LOW ∧ e.valore < m.HIGH
  · exact Or.inr (safeBandCheck_fire m e s hg)
  · exact Or.inl (safeBandCheck_skip m e s hg)

/-- `transition` on a filtered record is the filter-free block chain run on
the prev-updated state with the previously stored value. -/
theorem transition_checksFrom (m : Pressure) (s : PressureState) (e : Event)
    (hk : e.tipoGrandezza = monitoredKind) :
    transition m s e = checksFrom m e (s.prev_value e.id)
      { s with prev_value := upd s.prev_value e.id (some e.valore) } := by
  simp only [transition, checksFrom, hk, ne_eq, not_true_eq_false, if_false]

/- ### A violation-free evaluation never pushes a counter past the
tolerance: each block keeps, resets, or increments-within-bound every
counter, so `cntOkAll` is preserved along the chain. -/

theorem highCheck_cntOk (m : Pressure) (e : Event) (i : String)
    (t u : PressureState) (hv : (highCheck m e u).2 = none)
    (h : cntOkAll m i t u) : cntOkAll m i t ((highCheck m e u).1) := by
  obtain ⟨h1, h2, h3, h4⟩ := h
  rcases highCheck_none_inv m e u hv with ⟨_, heq⟩ | ⟨_, hb, heq⟩ <;> rw [heq]
  · exact ⟨h1, h2, h3, h4⟩
  · by_cases hi : i = e.id
    · subst hi
      refine ⟨Or.inl ?_, Or.inl ?_, h3, h4⟩
      · simpa [upd] using hb
      · simp [upd]
    · refine ⟨?_, ?_, h3, h4⟩
      · simpa [upd, hi] using h1
      · simpa [upd, hi] using h2

theorem lowCheck_cntOk (m : Pressure) (e : Event) (i : String)
    (t u : PressureState) (hv : (lowCheck m e u).2 = none)
    (h : cntOkAll m i t u) : cntOkAll m i t ((lowCheck m e u).1) := by
  obtain ⟨h1, h2, h3, h4⟩ := h
  rcases lowCheck_none_inv m e u hv with ⟨_, heq⟩ | ⟨_, hb, heq⟩ <;> rw [heq]
  · exact ⟨h1, h2, h3, h4⟩
  · by_cases hi : i = e.id
    · subst hi
      refine ⟨Or.inl ?_, Or.inl ?_, h3, h4⟩
      · simp [upd]
      · simpa [upd] using hb
    · refine ⟨?_, ?_, h3, h4⟩
      · simpa [upd, hi] using h1
      · simpa [upd, hi] using h2

theorem risingCheck_cntOk (m : Pressure) (e : Event) (prev : Option ℚ)
    (i : String) (t u : PressureState)
    (hv : (risingCheck m e prev u).2 = none)
    (h : cntOkAll m i t u) : cntOkAll m i t ((risingCheck m e prev u).1) := by
  obtain ⟨h1, h2, h3, h4⟩ := h
  rcases risingCheck_none_inv m e prev u hv with ⟨heq, _⟩ |
    ⟨p, _, _, _, hb, heq⟩ <;> rw [heq]
  · exact ⟨h1, h2, h3, h4⟩
  · by_cases hi : i = e.id
    · subst hi
      refine ⟨h1, h2, Or.inl ?_, Or.inl ?_⟩
      · simpa [upd] using hb
      · simp [upd]
    · refine ⟨h1, h2, ?_, ?_⟩
      · simpa [upd, hi] using h3
      · simpa [upd, hi] using h4

theorem fallingCheck_cntOk (m : Pressure) (e : Event) (prev : Option ℚ)
    (i : String) (t u : PressureState)
    (hv : (fallingCheck m e prev u).2 = none)
    (h : cntOkAll m i t u) : cntOkAll m i t ((fallingCheck m e prev u).1) := by
  obtain ⟨h1, h2, h3, h4⟩ := h
  rcases fallingCheck_none_inv m e prev u hv with ⟨heq, _⟩ |
    ⟨p, _, _, _, hb, heq⟩ <;> rw [heq]
  · exact ⟨h1, h2, h3, h4⟩
  · by_cases hi : i = e.id
    · subst hi
      refine ⟨h1, h2, Or.inl ?_, Or.inl ?_⟩
      · simp [upd]
      · simpa [upd] using hb
    · refine ⟨h1, h2, ?_, ?_⟩
      · simpa [upd, hi] using h3
      · simpa [upd, hi] using h4

theorem stabilityCheck_cntOk (m : Pressure) (e : Event) (prev : Option ℚ)
    (i : String) (t u : PressureState)
    (h : cntOkAll m i t u) : cntOkAll m i t ((stabilityCheck m e prev u).1) := by
  obtain ⟨h1, h2, h3, h4⟩ := h
  rcases stabilityCheck_cases m e prev u with heq | heq <;> rw [heq]
  · exact ⟨h1, h2, h3, h4⟩
  · by_cases hi : i = e.id
    · subst hi
      refine ⟨h1, h2, Or.inl ?_, Or.inl ?_⟩ <;> simp [upd]
    · refine ⟨h1, h2, ?_, ?_⟩
      · simpa [upd, hi] using h3
      · simpa [upd, hi] using h4

theorem safeBandCheck_cntOk (m : Pressure) (e : Event) (i : String)
    (t u : PressureState)
    (h : cntOkAll m i t u) : cntOkAll m i t ((safeBandCheck m e u).1) := by
  obtain ⟨h1, h2, h3, h4⟩ := h
  rcases safeBandCheck_cases m e u with heq | heq <;> rw [heq]
  · exact ⟨h1, h2, h3, h4⟩
  · by_cases hi : i = e.id
    · subst hi
      refine ⟨Or.inl ?_, Or.inl ?_, h3, h4⟩ <;> simp [upd]
    · refine ⟨?_, ?_, h3, h4⟩
      · simpa [upd, hi] using h1
      · simpa [upd, hi] using h2

/-- A violation-free run of the six blocks leaves every counter either
within the tolerance or exactly at its starting value. -/
theorem checksFrom_none_cntOk (m : Pressure) (e : Event) (prev : Option ℚ)
    (i : String) (t : PressureState)
    (hv : (checksFrom m e prev t).2 = none) :
    cntOkAll m i t ((checksFrom m e prev t).1) := by
  have h0 : cntOkAll m i t t :=
    ⟨Or.inr rfl, Or.inr rfl, Or.inr rfl, Or.inr rfl⟩
  rw [checksFrom] at hv ⊢
  obtain ⟨hc1, he1⟩ := andThen_none_inv hv
  rw [he1] at hv ⊢
  obtain ⟨hc2, he2⟩ := andThen_none_inv hv
  rw [he2] at hv ⊢
  obtain ⟨hc3, he3⟩ := andThen_none_inv hv
  rw [he3] at hv ⊢
  obtain ⟨hc4, he4⟩ := andThen_none_inv hv
  rw [he4] at hv ⊢
  obtain ⟨hc5, he5⟩ := andThen_none_inv hv
  rw [he5] at hv ⊢
  exact safeBandCheck_cntOk m e i t _
    (stabilityCheck_cntOk m e prev i t _
      (fallingCheck_cntOk m e prev i t _ hc4
        (risingCheck_cntOk m e prev i t _ hc3
          (lowCheck_cntOk m e i t _ hc2
            (highCheck_cntOk m e i t _ hc1 h0)))))

/- ### Layered inversion of an emitted violation -/

/-- The last two blocks (stability reset, safe-band reset) never emit. -/
theorem chain_tail_snd (m : Pressure) (e : Event) (prev : Option ℚ)
    (t : PressureState) :
    (andThen (stabilityCheck m e prev t)
      (fun u => safeBandCheck m e u)).2 = none := by
  rw [andThen_go (stabilityCheck_snd m e prev t)]
  exact safeBandCheck_snd m e _

/-- If the chain from the falling block on emits, the falling block emitted,
with the stated guard, streak and final state. -/
theorem chain4_some_inv (m : Pressure) (e : Event) (prev : Option ℚ)
    (t : PressureState) (v : Violation)
    (hv : (andThen (fallingCheck m e prev t)
      (fun u => andThen (stabilityCheck m e prev u)
        (fun u => safeBandCheck m e u))).2 = some v) :
    (∃ p, prev = some p ∧ p ≠ 0 ∧ p - e.valore > m.MAX_DELTA) ∧
    t.down_counts e.id + 1 > m.MAX_UNSAFE ∧
    v = ⟨e.id, Cond.falling, t.down_counts e.id + 1⟩ ∧
    (andThen (fallingCheck m e prev t)
      (fun u => andThen (stabilityCheck m e prev u)
        (fun u => safeBandCheck m e u))).1 =
      { t with down_counts := upd t.down_counts e.id (t.down_counts e.id + 1) } := by
  rcases h4 : (fallingCheck m e prev t).2 with _ | w
  · rw [andThen_go h4, chain_tail_snd m e prev _] at hv
    simp at hv
  · rw [andThen_stop h4] at hv ⊢
    rw [h4] at hv
    obtain rfl : v = w := by simpa using hv.symm
    obtain ⟨hg, hb, hveq, hst⟩ := fallingCheck_some_inv m e prev t v h4
    exact ⟨hg, hb, hveq, hst⟩

/-- If the chain from the rising block on emits, either the rising block or
the falling block emitted, with the stated facts relative to the chain's
input state. -/
theorem chain3_some_inv (m : Pressure) (e : Event) (prev : Option ℚ)
    (t : PressureState) (v : Violation)
    (hv : (andThen (risingCheck m e prev t)
      (fun u => andThen (fallingCheck m e prev u)
        (fun u => andThen (stabilityCheck m e prev u)
          (fun u => safeBandCheck m e u)))).2 = some v) :
    (v = ⟨e.id, Cond.rising, t.up_counts e.id + 1⟩ ∧
      (∃ p, prev = some p ∧ p ≠ 0 ∧ e.valore - p > m.MAX_DELTA) ∧
      t.up_counts e.id + 1 > m.MAX_UNSAFE ∧
      (andThen (risingCheck m e prev t)
        (fun u => andThen (fallingCheck m e prev u)
          (fun u => andThen (stabilityCheck m e prev u)
            (fun u => safeBandCheck m e u)))).1 =
        { t with up_counts := upd t.up_counts e.id (t.up_counts e.id + 1) }) ∨
    (v = ⟨e.id, Cond.falling, t.down_counts e.id + 1⟩ ∧
      (∃ p, prev = some p ∧ p ≠ 0 ∧ p - e.valore > m.MAX_DELTA) ∧
      t.down_counts e.id + 1 > m.MAX_UNSAFE ∧
      (andThen (risingCheck m e prev t)
        (fun u => andThen (fallingCheck m e prev u)
          (fun u => andThen (stabilityCheck m e prev u)
            (fun u => safeBandCheck m e u)))).1 =
        { t with down_counts := upd t.down_counts e.id (t.down_counts e.id + 1) }) := by
  rcases h3 : (risingCheck m e prev t).2 with _ | w
  · rcases risingCheck_none_inv m e prev t h3 with ⟨heq, _⟩ |
      ⟨p, hp, hp0, hpd, hbnd, heq⟩
    · rw [heq, andThen_none] at hv ⊢
      obtain ⟨hg, hb, hveq, hst⟩ := chain4_some_inv m e prev t v hv
      exact Or.inr ⟨hveq, hg, hb, hst⟩
    · rw [heq, andThen_none] at hv
      obtain ⟨hg, hb, hveq, hst⟩ := chain4_some_inv m e prev _ v hv
      exfalso
      have hb' : (0 : ℕ) + 1 > m.MAX_UNSAFE := by simpa [upd] using hb
      omega
  · rw [andThen_stop h3] at hv ⊢
    rw [h3] at hv
    obtain rfl : v = w := by simpa using hv.symm
    obtain ⟨hg, hb, hveq, hst⟩ := risingCheck_some_inv m e prev t v h3
    exact Or.inl ⟨hveq, hg, hb, hst⟩

/-- If the chain from the low block on emits, the low, rising or falling
block emitted, with the stated facts relative to the chain's input state. -/
theorem chain2_some_inv (m : Pressure) (e : Event) (prev : Option ℚ)
    (t : PressureState) (v : Violation)
    (hv : (andThen (lowCheck m e t)
      (fun u => andThen (risingCheck m e prev u)
        (fun u => andThen (fallingCheck m e prev u)
          (fun u => andThen (stabilityCheck m e prev u)
            (fun u => safeBandCheck m e u))))).2 = some v) :
    (v = ⟨e.id, Cond.low, t.low_counts e.id + 1⟩ ∧ e.valore < m.LOW ∧
      t.low_counts e.id + 1 > m.MAX_UNSAFE ∧
      (andThen (lowCheck m e t)
        (fun u => andThen (risingCheck m e prev u)
          (fun u => andThen (fallingCheck m e prev u)
            (fun u => andThen (stabilityCheck m e prev u)
              (fun u => safeBandCheck m e u))))).1 =
        { t with low_counts := upd t.low_counts e.id (t.low_counts e.id + 1) }) ∨
    (v = ⟨e.id, Cond.rising, t.up_counts e.id + 1⟩ ∧
      (∃ p, prev = some p ∧ p ≠ 0 ∧ e.valore - p > m.MAX_DELTA) ∧
      t.up_counts e.id + 1 > m.MAX_UNSAFE ∧
      (andThen (lowCheck m e t)
        (fun u => andThen (risingCheck m e prev u)
          (fun u => andThen (fallingCheck m e prev u)
            (fun u => andThen (stabilityCheck m e prev u)
              (fun u => safeBandCheck m e u))))).1.up_counts =
        upd t.up_counts e.id (t.up_counts e.id + 1) ∧
      (andThen (lowCheck m e t)
        (fun u => andThen (risingCheck m e prev u)
          (fun u => andThen (fallingCheck m e prev u)
            (fun u => andThen (stabilityCheck m e prev u)
              (fun u => safeBandCheck m e u))))).1.down_counts =
        t.down_counts ∧
      (¬ e.valore < m.LOW →
        (andThen (lowCheck m e t)
          (fun u => andThen (risingCheck m e prev u)
            (fun u => andThen (fallingCheck m e prev u)
              (fun u => andThen (stabilityCheck m e prev u)
                (fun u => safeBandCheck m e u))))).1 =
          { t with up_counts := upd t.up_counts e.id (t.up_counts e.id + 1) })) ∨
    (v = ⟨e.id, Cond.falling, t.down_counts e.id + 1⟩ ∧
      (∃ p, prev = some p ∧ p ≠ 0 ∧ p - e.valore > m.MAX_DELTA) ∧
      t.down_counts e.id + 1 > m.MAX_UNSAFE ∧
      (andThen (lowCheck m e t)
        (fun u => andThen (risingCheck m e prev u)
          (fun u => andThen (fallingCheck m e prev u)
            (fun u => andThen (stabilityCheck m e prev u)
              (fun u => safeBandCheck m e u))))).1.down_counts =
        upd t.down_counts e.id (t.down_counts e.id + 1) ∧
      (andThen (lowCheck m e t)
        (fun u => andThen (risingCheck m e prev u)
          (fun u => andThen (fallingCheck m e prev u)
            (fun u => andThen (stabilityCheck m e prev u)
              (fun u => safeBandCheck m e u))))).1.up_counts =
        t.up_counts ∧
      (¬ e.valore < m.LOW →
        (andThen (lowCheck m e t)
          (fun u => andThen (risingCheck m e prev u)
            (fun u => andThen (fallingCheck m e prev u)
              (fun u => andThen (stabilityCheck m e prev u)
                (fun u => safeBandCheck m e u))))).1 =
          { t with down_counts := upd t.down_counts e.id (t.down_counts e.id + 1) })) := by
  rcases h2 : (lowCheck m e t).2 with _ | w
  · rcases lowCheck_none_inv m e t h2 with ⟨hng, heq⟩ | ⟨hlt, hbnd, heq⟩
    · rw [heq, andThen_none] at hv ⊢
      rcases chain3_some_inv m e prev t v hv with
        ⟨hveq, hg, hb, hst⟩ | ⟨hveq, hg, hb, hst⟩
      · exact Or.inr (Or.inl ⟨hveq, hg, hb, by rw [hst], by rw [hst],
          fun _ => hst⟩)
      · exact Or.inr (Or.inr ⟨hveq, hg, hb, by rw [hst], by rw [hst],
          fun _ => hst⟩)
    · rw [heq, andThen_none] at hv ⊢
      rcases chain3_some_inv m e prev _ v hv with
        ⟨hveq, hg, hb, hst⟩ | ⟨hveq, hg, hb, hst⟩
      · exact Or.inr (Or.inl ⟨hveq, hg, hb, by rw [hst], by rw [hst],
          fun hnl => absurd hlt hnl⟩)
      · exact Or.inr (Or.inr ⟨hveq, hg, hb, by rw [hst], by rw [hst],
          fun hnl => absurd hlt hnl⟩)
  · rw [andThen_stop h2] at hv ⊢
    rw [h2] at hv
    obtain rfl : v = w := by simpa using hv.symm
    obtain ⟨hlt, hbnd, hveq, hst⟩ := lowCheck_some_inv m e t v h2
    exact Or.inl ⟨hveq, hlt, hbnd, hst⟩

/-- Full inversion of an emitted violation over the six blocks: exactly one
block emitted, in the fixed order high, low, rising, falling, and the
violation's streak is the incremented counter of the reading's entity. -/
theorem checksFrom_some_inv (m : Pressure) (e : Event) (prev : Option ℚ)
    (t : PressureState) (v : Violation)
    (hv : (checksFrom m e prev t).2 = some v) :
    (v = ⟨e.id, Cond.high, t.high_counts e.id + 1⟩ ∧ e.valore > m.HIGH ∧
      t.high_counts e.id + 1 > m.MAX_UNSAFE ∧
      (checksFrom m e prev t).1 =
        { t with high_counts := upd t.high_counts e.id (t.high_counts e.id + 1) }) ∨
    (v = ⟨e.id, Cond.low, t.low_counts e.id + 1⟩ ∧ ¬ e.valore > m.HIGH ∧
      e.valore < m.LOW ∧ t.low_counts e.id + 1 > m.MAX_UNSAFE ∧
      (checksFrom m e prev t).1 =
        { t with low_counts := upd t.low_counts e.id (t.low_counts e.id + 1) }) ∨
    (v = ⟨e.id, Cond.rising, t.up_counts e.id + 1⟩ ∧
      (∃ p, prev = some p ∧ p ≠ 0 ∧ e.valore - p > m.MAX_DELTA) ∧
      t.up_counts e.id + 1 > m.MAX_UNSAFE ∧
      (checksFrom m e prev t).1.up_counts =
        upd t.up_counts e.id (t.up_counts e.id + 1) ∧
      (checksFrom m e prev t).1.down_counts = t.down_counts ∧
      (¬ e.valore > m.HIGH → ¬ e.valore < m.LOW →
        (checksFrom m e prev t).1 =
          { t with up_counts := upd t.up_counts e.id (t.up_counts e.id + 1) })) ∨
    (v = ⟨e.id, Cond.falling, t.down_counts e.id + 1⟩ ∧
      (∃ p, prev = some p ∧ p ≠ 0 ∧ p - e.valore > m.MAX_DELTA) ∧
      t.down_counts e.id + 1 > m.MAX_UNSAFE ∧
      (checksFrom m e prev t).1.down_counts =
        upd t.down_counts e.id (t.down_counts e.id + 1) ∧
      (checksFrom m e prev t).1.up_counts = t.up_counts ∧
      (¬ e.valore > m.HIGH → ¬ e.valore < m.LOW →
        (checksFrom m e prev t).1 =
          { t with down_counts := upd t.down_counts e.id (t.down_counts e.id + 1) })) := by
  rw [checksFrom] at hv ⊢
  rcases h1 : (highCheck m e t).2 with _ | w
  · rcases highCheck_none_inv m e t h1 with ⟨hng, heq⟩ | ⟨hgt, hbnd, heq⟩
    · rw [heq, andThen_none] at hv ⊢
      rcases chain2_some_inv m e prev t v hv with
        ⟨hveq, hlt, hb, hst⟩ | ⟨hveq, hg, hb, hup, hdn, hcond⟩ |
        ⟨hveq, hg, hb, hdn, hup, hcond⟩
      · exact Or.inr (Or.inl ⟨hveq, hng, hlt, hb, hst⟩)
      · exact Or.inr (Or.inr (Or.inl ⟨hveq, hg, hb, hup, hdn,
          fun _ hnl => hcond hnl⟩))
      · exact Or.inr (Or.inr (Or.inr ⟨hveq, hg, hb, hdn, hup,
          fun _ hnl => hcond hnl⟩))
    · rw [heq, andThen_none] at hv ⊢
      rcases chain2_some_inv m e prev _ v hv with
        ⟨hveq, hlt, hb, hst⟩ | ⟨hveq, hg, hb, hup, hdn, hcond⟩ |
        ⟨hveq, hg, hb, hdn, hup, hcond⟩
      · exfalso
        have hb' : (0 : ℕ) + 1 > m.MAX_UNSAFE := by simpa [upd] using hb
        omega
      · exact Or.inr (Or.inr (Or.inl ⟨hveq, hg, hb, hup, hdn,
          fun hnh _ => absurd hgt hnh⟩))
      · exact Or.inr (Or.inr (Or.inr ⟨hveq, hg, hb, hdn, hup,
          fun hnh _ => absurd hgt hnh⟩))
  · rw [andThen_stop h1] at hv ⊢
    rw [h1] at hv
    obtain rfl : v = w := by simpa using hv.symm
    obtain ⟨hgt, hbnd, hveq, hst⟩ := highCheck_some_inv m e t v h1
    exact Or.inl ⟨hveq, hgt, hbnd, hst⟩

/-- Claim C7: A record whose measurement-kind field differs from the monitored
kind (`'Tipo Grandezza' != "Pressione a valle"`, lines 25–26 of `demo.py`)
produces no violation and no state change at all: `transition` returns the
state untouched, so every entity's four streak counters and `previousValue`
are exactly as before the call. -/
theorem unfilteredKind_noop (m : Pressure) (s : PressureState) (e : Event)
    (h : e.tipoGrandezza ≠ monitoredKind) :
    transition m s e = (s, none) := by
  simp [transition, h]

/-- Witness for `unfilteredKind_noop`: a flow-rate record is dropped with no
state change. -/
theorem unfilteredKind_noop_witness :
    ("Portata" ≠ monitoredKind) ∧
      transition mA PressureState.initial ⟨"P1", "Portata", 200⟩
        = (PressureState.initial, none) :=
  ⟨by decide, unfilteredKind_noop mA PressureState.initial
    ⟨"P1", "Portata", 200⟩ (by decide)⟩

theorem sameAt_trans {i : String} {t u w : PressureState}
    (h1 : sameAt i t u) (h2 : sameAt i u w) : sameAt i t w :=
  ⟨h1.1.trans h2.1, h1.2.1.trans h2.2.1, h1.2.2.1.trans h2.2.2.1,
    h1.2.2.2.1.trans h2.2.2.2.1, h1.2.2.2.2.trans h2.2.2.2.2⟩

/-- Early-exit composition preserves entity-`i` agreement when every later
check does. -/
theorem andThen_other {i : String} {u : PressureState}
    {r : PressureState × Option Violation}
    {f : PressureState → PressureState × Option Violation}
    (hr : sameAt i r.1 u) (hf : ∀ t, sameAt i ((f t).1) t) :
    sameAt i ((andThen r f).1) u := by
  obtain ⟨s, o⟩ := r
  cases o
  · exact sameAt_trans (hf s) hr
  · exact hr

/-- `highCheck` never touches the dictionaries of another entity. -/
theorem highCheck_other (m : Pressure) (e : Event) (s : PressureState)
    (i : String) (hne : i ≠ e.id) : sameAt i ((highCheck m e s).1) s := by
  simp only [highCheck]
  split_ifs <;> simp [sameAt, upd, hne]

/-- `lowCheck` never touches the dictionaries of another entity. -/
theorem lowCheck_other (m : Pressure) (e : Event) (s : PressureState)
    (i : String) (hne : i ≠ e.id) : sameAt i ((lowCheck m e s).1) s := by
  simp only [lowCheck]
  split_ifs <;> simp [sameAt, upd, hne]

/-- `risingCheck` never touches the dictionaries of another entity. -/
theorem risingCheck_other (m : Pressure) (e : Event) (p : Option ℚ)
    (s : PressureState) (i : String) (hne : i ≠ e.id) :
    sameAt i ((risingCheck m e p s).1) s := by
  rcases p with _ | p <;> simp only [risingCheck]
  · simp [sameAt]
  · split_ifs <;> simp [sameAt, upd, hne]

/-- `fallingCheck` never touches the dictionaries of another entity. -/
theorem fallingCheck_other (m : Pressure) (e : Event) (p : Option ℚ)
    (s : PressureState) (i : String) (hne : i ≠ e.id) :
    sameAt i ((fallingCheck m e p s).1) s := by
  rcases p with _ | p <;> simp only [fallingCheck]
  · simp [sameAt]
  · split_ifs <;> simp [sameAt, upd, hne]

/-- `stabilityCheck` never touches the dictionaries of another entity. -/
theorem stabilityCheck_other (m : Pressure) (e : Event) (p : Option ℚ)
    (s : PressureState) (i : String) (hne : i ≠ e.id) :
    sameAt i ((stabilityCheck m e p s).1) s := by
  rcases p with _ | p <;> simp only [stabilityCheck]
  · simp [sameAt]
  · split_ifs <;> simp [sameAt, upd, hne]

/-- `safeBandCheck` never touches the dictionaries of another entity. -/
theorem safeBandCheck_other (m : Pressure) (e : Event) (s : PressureState)
    (i : String) (hne : i ≠ e.id) : sameAt i ((safeBandCheck m e s).1) s := by
  simp only [safeBandCheck]
  split_ifs <;> simp [sameAt, upd, hne]

/-- Claim C8: Entities are independent: evaluating a filtered reading for
entity `e.id` leaves all four streak counters and the previous value of every
other entity `i ≠ e.id` unchanged (every dictionary write in
`Pressure.transition` is keyed by `event['ID']`). -/
theorem other_entity_unchanged (m : Pressure) (s : PressureState) (e : Event)
    (i : String) (hk : e.tipoGrandezza = monitoredKind) (hne : i ≠ e.id) :
    (transition m s e).1.high_counts i = s.high_counts i ∧
    (transition m s e).1.low_counts i = s.low_counts i ∧
    (transition m s e).1.up_counts i = s.up_counts i ∧
    (transition m s e).1.down_counts i = s.down_counts i ∧
    (transition m s e).1.prev_value i = s.prev_value i := by
  show sameAt i (transition m s e).1 s
  simp only [transition, hk, ne_eq, not_true_eq_false, if_false]
  refine andThen_other
    (sameAt_trans (highCheck_other m e _ i hne) ?_)
    (fun t => andThen_other (lowCheck_other m e t i hne)
      (fun t => andThen_other (risingCheck_other m e _ t i hne)
        (fun t => andThen_other (fallingCheck_other m e _ t i hne)
          (fun t => andThen_other (stabilityCheck_other m e _ t i hne)
            (fun t => safeBandCheck_other m e t i hne)))))
  exact ⟨rfl, rfl, rfl, rfl, upd_other _ _ _ _ hne⟩

/-- Witness for `other_entity_unchanged`: a high reading for entity `"A"`
leaves entity `"B"` untouched. -/
theorem other_entity_unchanged_witness :
    (transition mA PressureState.initial (ev "A" 50)).1.high_counts "B"
        = PressureState.initial.high_counts "B" ∧
    (transition mA PressureState.initial (ev "A" 50)).1.low_counts "B"
        = PressureState.initial.low_counts "B" ∧
    (transition mA PressureState.initial (ev "A" 50)).1.up_counts "B"
        = PressureState.initial.up_counts "B" ∧
    (transition mA PressureState.initial (ev "A" 50)).1.down_counts "B"
        = PressureState.initial.down_counts "B" ∧
    (transition mA PressureState.initial (ev "A" 50)).1.prev_value "B"
        = PressureState.initial.prev_value "B" :=
  other_entity_unchanged mA PressureState.initial (ev "A" 50) "B" rfl
    (by decide)

/-- Claim C2: Once a check emits, the remaining checks and resets of that
reading are skipped: a high violation leaves `low_counts`, `up_counts` and
`down_counts` exactly as before the reading (in particular the high check's
own `low_counts` reset is skipped); a low violation leaves both rate
dictionaries untouched; a rising violation leaves `down_counts` untouched;
and an in-band reading that emits a rate violation skips the safe-band
reset, leaving both level dictionaries untouched.  At most one violation per
reading is structural: `transition` returns a single `Option Violation`,
mirroring the single `return error(...)` exit of the Python code. -/
theorem single_violation_stops (m : Pressure) (s : PressureState) (e : Event)
    (v : Violation) (hv : (transition m s e).2 = some v) :
    (v.cond = Cond.high →
        (transition m s e).1.low_counts = s.low_counts ∧
        (transition m s e).1.up_counts = s.up_counts ∧
        (transition m s e).1.down_counts = s.down_counts) ∧
    (v.cond = Cond.low →
        (transition m s e).1.up_counts = s.up_counts ∧
        (transition m s e).1.down_counts = s.down_counts) ∧
    (v.cond = Cond.rising →
        (transition m s e).1.down_counts = s.down_counts) ∧
    ((v.cond = Cond.rising ∨ v.cond = Cond.falling) →
      ¬ e.valore > m.HIGH → ¬ e.valore < m.LOW →
        (transition m s e).1.high_counts = s.high_counts ∧
        (transition m s e).1.low_counts = s.low_counts) := by
  have hk : e.tipoGrandezza = monitoredKind := by
    by_contra hkne
    simp [transition, hkne] at hv
  rw [transition_checksFrom m s e hk] at hv ⊢
  rcases checksFrom_some_inv m e _ _ v hv with
    ⟨hveq, _, _, hst⟩ | ⟨hveq, _, _, _, hst⟩ |
    ⟨hveq, _, _, hup, hdn, hcond⟩ | ⟨hveq, _, _, hdn, hup, hcond⟩
  · subst hveq
    refine ⟨fun _ => ?_, fun hc => absurd hc (by simp),
      fun hc => absurd hc (by simp), fun hc => absurd hc (by simp)⟩
    rw [hst]
    exact ⟨rfl, rfl, rfl⟩
  · subst hveq
    refine ⟨fun hc => absurd hc (by simp), fun _ => ?_,
      fun hc => absurd hc (by simp), fun hc => absurd hc (by simp)⟩
    rw [hst]
    exact ⟨rfl, rfl⟩
  · subst hveq
    refine ⟨fun hc => absurd hc (by simp), fun hc => absurd hc (by simp),
      fun _ => hdn, fun _ hnh hnl => ?_⟩
    rw [hcond hnh hnl]
    exact ⟨rfl, rfl⟩
  · subst hveq
    refine ⟨fun hc => absurd hc (by simp), fun hc => absurd hc (by simp),
      fun hc => absurd hc (by simp), fun _ hnh hnl => ?_⟩
    rw [hcond hnh hnl]
    exact ⟨rfl, rfl⟩

/-- Witness for `single_violation_stops`: a reading that simultaneously
breaches the high threshold and the rising rate emits only the high
violation, and the rising counter is left untouched. -/
theorem single_violation_stops_witness :
    (transition mA (run mA PressureState.initial [ev "P1" 20])
        (ev "P1" 200)).2 = some ⟨"P1", Cond.high, 1⟩ ∧
    (transition mA (run mA PressureState.initial [ev "P1" 20])
        (ev "P1" 200)).1.up_counts
      = (run mA PressureState.initial [ev "P1" 20]).up_counts ∧
    (transition mA (run mA PressureState.initial [ev "P1" 20])
        (ev "P1" 200)).1.down_counts
      = (run mA PressureState.initial [ev "P1" 20]).down_counts ∧
    (transition mA (run mA PressureState.initial [ev "P1" 20])
        (ev "P1" 200)).1.low_counts
      = (run mA PressureState.initial [ev "P1" 20]).low_counts := by
  have hv : (transition mA (run mA PressureState.initial [ev "P1" 20])
      (ev "P1" 200)).2 = some ⟨"P1", Cond.high, 1⟩ := by
    norm_num [run, transition, highCheck, lowCheck, risingCheck, fallingCheck,
      stabilityCheck, safeBandCheck, andThen, upd, monitoredKind, mA,
      mkPressure, ev, PressureState.initial]
  have h := single_violation_stops mA
    (run mA PressureState.initial [ev "P1" 20]) (ev "P1" 200)
    ⟨"P1", Cond.high, 1⟩ hv
  exact ⟨hv, (h.1 rfl).2.1, (h.1 rfl).2.2, (h.1 rfl).1⟩

/-- Counterexample to claim C1 as stated.  With `MAX_UNSAFE = 1`, after two
consecutive too-high readings the high streak is `2`; a third too-high
reading emits a violation while the high counter moves from `2` to `3` and
the other three counters stay at `0` — so a violation is emitted although no
counter transitions from `MAX_UNSAFE` to `MAX_UNSAFE + 1`.  (The strict
boundary half of the claim is true and is kept in the amended theorem.) -/
theorem violation_without_exact_crossing :
    (transition mB (run mB PressureState.initial
        [ev "P1" 150, ev "P1" 150]) (ev "P1" 150)).2
      = some ⟨"P1", Cond.high, 3⟩ ∧
    mB.MAX_UNSAFE = 1 ∧
    (run mB PressureState.initial [ev "P1" 150, ev "P1" 150]).high_counts "P1" = 2 ∧
    (transition mB (run mB PressureState.initial
        [ev "P1" 150, ev "P1" 150]) (ev "P1" 150)).1.high_counts "P1" = 3 ∧
    (run mB PressureState.initial [ev "P1" 150, ev "P1" 150]).low_counts "P1" = 0 ∧
    (run mB PressureState.initial [ev "P1" 150, ev "P1" 150]).up_counts "P1" = 0 ∧
    (run mB PressureState.initial [ev "P1" 150, ev "P1" 150]).down_counts "P1" = 0 ∧
    (transition mB (run mB PressureState.initial
        [ev "P1" 150, ev "P1" 150]) (ev "P1" 150)).1.low_counts "P1" = 0 ∧
    (transition mB (run mB PressureState.initial
        [ev "P1" 150, ev "P1" 150]) (ev "P1" 150)).1.up_counts "P1" = 0 ∧
    (transition mB (run mB PressureState.initial
        [ev "P1" 150, ev "P1" 150]) (ev "P1" 150)).1.down_counts "P1" = 0 := by
  norm_num [run, transition, highCheck, lowCheck, risingCheck, fallingCheck,
    stabilityCheck, safeBandCheck, andThen, upd, monitoredKind, mB,
    mkPressure, ev, PressureState.initial]

/-- Claim C1, amended: A violation is emitted for a filtered reading if and
only if one of the four streak counters of the reading's entity is
incremented past `MAX_UNSAFE`, i.e. moves from a value `≥ MAX_UNSAFE` to its
successor.  The strict boundary behaviour of the original claim holds: at a
streak of exactly `MAX_UNSAFE` no alert is emitted, the first alert comes at
`MAX_UNSAFE + 1`; but the monitor keeps alerting on every later increment,
so the crossing is from `≥ MAX_UNSAFE`, not from exactly `MAX_UNSAFE`. -/
theorem violation_iff_counter_incremented_past (m : Pressure)
    (s : PressureState) (e : Event) (hk : e.tipoGrandezza = monitoredKind) :
    (∃ v, (transition m s e).2 = some v) ↔
      (((transition m s e).1.high_counts e.id = s.high_counts e.id + 1 ∧
          m.MAX_UNSAFE ≤ s.high_counts e.id) ∨
       ((transition m s e).1.low_counts e.id = s.low_counts e.id + 1 ∧
          m.MAX_UNSAFE ≤ s.low_counts e.id) ∨
       ((transition m s e).1.up_counts e.id = s.up_counts e.id + 1 ∧
          m.MAX_UNSAFE ≤ s.up_counts e.id) ∨
       ((transition m s e).1.down_counts e.id = s.down_counts e.id + 1 ∧
          m.MAX_UNSAFE ≤ s.down_counts e.id)) := by
  rw [transition_checksFrom m s e hk]
  constructor
  · rintro ⟨v, hv⟩
    rcases checksFrom_some_inv m e _ _ v hv with
      ⟨_, _, hb, hst⟩ | ⟨_, _, _, hb, hst⟩ |
      ⟨_, _, hb, hup, _, _⟩ | ⟨_, _, hb, hdn, _, _⟩
    · refine Or.inl ⟨?_, ?_⟩
      · rw [hst]
        exact upd_same _ _ _
      · have hb' : s.high_counts e.id + 1 > m.MAX_UNSAFE := hb
        omega
    · refine Or.inr (Or.inl ⟨?_, ?_⟩)
      · rw [hst]
        exact upd_same _ _ _
      · have hb' : s.low_counts e.id + 1 > m.MAX_UNSAFE := hb
        omega
    · refine Or.inr (Or.inr (Or.inl ⟨?_, ?_⟩))
      · rw [congrFun hup e.id]
        exact upd_same _ _ _
      · have hb' : s.up_counts e.id + 1 > m.MAX_UNSAFE := hb
        omega
    · refine Or.inr (Or.inr (Or.inr ⟨?_, ?_⟩))
      · rw [congrFun hdn e.id]
        exact upd_same _ _ _
      · have hb' : s.down_counts e.id + 1 > m.MAX_UNSAFE := hb
        omega
  · intro hdisj
    rcases ho : (checksFrom m e (s.prev_value e.id)
        { s with prev_value := upd s.prev_value e.id (some e.valore) }).2
      with _ | v
    · exfalso
      obtain ⟨q1, q2, q3, q4⟩ := checksFrom_none_cntOk m e _ e.id _ ho
      have q1' : (checksFrom m e (s.prev_value e.id)
          { s with prev_value := upd s.prev_value e.id (some e.valore) }).1.high_counts e.id
            ≤ m.MAX_UNSAFE ∨
          (checksFrom m e (s.prev_value e.id)
          { s with prev_value := upd s.prev_value e.id (some e.valore) }).1.high_counts e.id
            = s.high_counts e.id := q1
      have q2' : (checksFrom m e (s.prev_value e.id)
          { s with prev_value := upd s.prev_value e.id (some e.valore) }).1.low_counts e.id
            ≤ m.MAX_UNSAFE ∨
          (checksFrom m e (s.prev_value e.id)
          { s with prev_value := upd s.prev_value e.id (some e.valore) }).1.low_counts e.id
            = s.low_counts e.id := q2
      have q3' : (checksFrom m e (s.prev_value e.id)
          { s with prev_value := upd s.prev_value e.id (some e.valore) }).1.up_counts e.id
            ≤ m.MAX_UNSAFE ∨
          (checksFrom m e (s.prev_value e.id)
          { s with prev_value := upd s.prev_value e.id (some e.valore) }).1.up_counts e.id
            = s.up_counts e.id := q3
      have q4' : (checksFrom m e (s.prev_value e.id)
          { s with prev_value := upd s.prev_value e.id (some e.valore) }).1.down_counts e.id
            ≤ m.MAX_UNSAFE ∨
          (checksFrom m e (s.prev_value e.id)
          { s with prev_value := upd s.prev_value e.id (some e.valore) }).1.down_counts e.id
            = s.down_counts e.id := q4
      rcases hdisj with ⟨h, hb⟩ | ⟨h, hb⟩ | ⟨h, hb⟩ | ⟨h, hb⟩
      · rcases q1' with hq | hq <;> omega
      · rcases q2' with hq | hq <;> omega
      · rcases q3' with hq | hq <;> omega
      · rcases q4' with hq | hq <;> omega
    · exact ⟨v, rfl⟩

/-- Witness for `violation_iff_counter_incremented_past`: the backward
direction turns a concrete high-counter increment past the tolerance into an
emitted violation. -/
theorem violation_iff_counter_incremented_past_witness :
    ((transition mB (run mB PressureState.initial
        [ev "P1" 150, ev "P1" 150]) (ev "P1" 150)).2).isSome = true := by
  have h : ∃ v, (transition mB (run mB PressureState.initial
      [ev "P1" 150, ev "P1" 150]) (ev "P1" 150)).2 = some v := by
    refine (violation_iff_counter_incremented_past mB
      (run mB PressureState.initial [ev "P1" 150, ev "P1" 150])
      (ev "P1" 150) rfl).mpr (Or.inl ⟨?_, ?_⟩) <;>
      norm_num [run, transition, highCheck, lowCheck, risingCheck,
        fallingCheck, stabilityCheck, safeBandCheck, andThen, upd,
        monitoredKind, mB, mkPressure, ev, PressureState.initial]
  obtain ⟨v, hv⟩ := h
  rw [hv]
  rfl

/- ### Re-emission helpers for C3 -/

theorem checksFrom_high_reemit (m : Pressure) (e : Event) (prev : Option ℚ)
    (t : PressureState) (hgt : e.valore > m.HIGH)
    (hcnt : m.MAX_UNSAFE ≤ t.high_counts e.id) :
    (checksFrom m e prev t).2 = some ⟨e.id, Cond.high, t.high_counts e.id + 1⟩ := by
  rw [checksFrom, highCheck_emit m e t hgt (by omega), andThen_some]

theorem checksFrom_low_reemit (m : Pressure) (e : Event) (prev : Option ℚ)
    (t : PressureState) (hng : ¬ e.valore > m.HIGH) (hlt : e.valore < m.LOW)
    (hcnt : m.MAX_UNSAFE ≤ t.low_counts e.id) :
    (checksFrom m e prev t).2 = some ⟨e.id, Cond.low, t.low_counts e.id + 1⟩ := by
  rw [checksFrom, highCheck_skip m e t hng, andThen_none,
    lowCheck_emit m e t hlt (by omega), andThen_some]

theorem checksFrom_rising_reemit (m : Pressure) (e : Event) (p : ℚ)
    (t : PressureState) (hng : ¬ e.valore > m.HIGH) (hnl : ¬ e.valore < m.LOW)
    (hp0 : p ≠ 0) (hd : e.valore - p > m.MAX_DELTA)
    (hcnt : m.MAX_UNSAFE ≤ t.up_counts e.id) :
    (checksFrom m e (some p) t).2 =
      some ⟨e.id, Cond.rising, t.up_counts e.id + 1⟩ := by
  rw [checksFrom, highCheck_skip m e t hng, andThen_none,
    lowCheck_skip m e t hnl, andThen_none,
    risingCheck_emit m e p t hp0 hd (by omega), andThen_some]

theorem checksFrom_falling_reemit (m : Pressure) (e : Event) (p : ℚ)
    (t : PressureState) (hδ : 0 ≤ m.MAX_DELTA)
    (hng : ¬ e.valore > m.HIGH) (hnl : ¬ e.valore < m.LOW)
    (hp0 : p ≠ 0) (hd : p - e.valore > m.MAX_DELTA)
    (hcnt : m.MAX_UNSAFE ≤ t.down_counts e.id) :
    (checksFrom m e (some p) t).2 =
      some ⟨e.id, Cond.falling, t.down_counts e.id + 1⟩ := by
  have hnr : ¬ (p ≠ 0 ∧ e.valore - p > m.MAX_DELTA) := by
    rintro ⟨-, hc⟩
    linarith
  rw [checksFrom, highCheck_skip m e t hng, andThen_none,
    lowCheck_skip m e t hnl, andThen_none,
    risingCheck_skip m e p t hnr, andThen_none,
    fallingCheck_emit m e p t hp0 hd (by omega), andThen_some]

/-- Claim C3, amended: Emitting a violation does not reset the counter that
triggered it: the emitting condition's counter keeps its incremented value
(and the reported streak is that value).  On the next consecutive reading
that violates the same condition (by the code's own guards) another
violation is emitted with a streak one larger — provided no earlier check in
the fixed order high, low, rising, falling fires and emits first; the
original claim is falsified exactly by that preemption
(`rising_violation_preempted`). -/
theorem violation_no_reset_reemits (m : Pressure) (s : PressureState)
    (e : Event) :
    (∀ v, (transition m s e).2 = some v →
      (v.cond = Cond.high →
        (transition m s e).1.high_counts e.id = s.high_counts e.id + 1 ∧
        v.streak = s.high_counts e.id + 1) ∧
      (v.cond = Cond.low →
        (transition m s e).1.low_counts e.id = s.low_counts e.id + 1 ∧
        v.streak = s.low_counts e.id + 1) ∧
      (v.cond = Cond.rising →
        (transition m s e).1.up_counts e.id = s.up_counts e.id + 1 ∧
        v.streak = s.up_counts e.id + 1) ∧
      (v.cond = Cond.falling →
        (transition m s e).1.down_counts e.id = s.down_counts e.id + 1 ∧
        v.streak = s.down_counts e.id + 1)) ∧
    (e.tipoGrandezza = monitoredKind →
      (e.valore > m.HIGH → m.MAX_UNSAFE ≤ s.high_counts e.id →
        (transition m s e).2 = some ⟨e.id, Cond.high, s.high_counts e.id + 1⟩) ∧
      (¬ e.valore > m.HIGH → e.valore < m.LOW →
        m.MAX_UNSAFE ≤ s.low_counts e.id →
        (transition m s e).2 = some ⟨e.id, Cond.low, s.low_counts e.id + 1⟩) ∧
      (∀ p, ¬ e.valore > m.HIGH → ¬ e.valore < m.LOW →
        s.prev_value e.id = some p → p ≠ 0 → e.valore - p > m.MAX_DELTA →
        m.MAX_UNSAFE ≤ s.up_counts e.id →
        (transition m s e).2 = some ⟨e.id, Cond.rising, s.up_counts e.id + 1⟩) ∧
      (∀ p, 0 ≤ m.MAX_DELTA → ¬ e.valore > m.HIGH → ¬ e.valore < m.LOW →
        s.prev_value e.id = some p → p ≠ 0 → p - e.valore > m.MAX_DELTA →
        m.MAX_UNSAFE ≤ s.down_counts e.id →
        (transition m s e).2 = some ⟨e.id, Cond.falling, s.down_counts e.id + 1⟩)) := by
  constructor
  · intro v hv
    have hk : e.tipoGrandezza = monitoredKind := by
      by_contra hkne
      simp [transition, hkne] at hv
    rw [transition_checksFrom m s e hk] at hv ⊢
    rcases checksFrom_some_inv m e _ _ v hv with
      ⟨hveq, _, _, hst⟩ | ⟨hveq, _, _, _, hst⟩ |
      ⟨hveq, _, _, hup, _, _⟩ | ⟨hveq, _, _, hdn, _, _⟩ <;> subst hveq
    · refine ⟨fun _ => ⟨?_, rfl⟩, fun hc => absurd hc (by simp),
        fun hc => absurd hc (by simp), fun hc => absurd hc (by simp)⟩
      rw [hst]
      exact upd_same _ _ _
    · refine ⟨fun hc => absurd hc (by simp), fun _ => ⟨?_, rfl⟩,
        fun hc => absurd hc (by simp), fun hc => absurd hc (by simp)⟩
      rw [hst]
      exact upd_same _ _ _
    · refine ⟨fun hc => absurd hc (by simp), fun hc => absurd hc (by simp),
        fun _ => ⟨?_, rfl⟩, fun hc => absurd hc (by simp)⟩
      rw [congrFun hup e.id]
      exact upd_same _ _ _
    · refine ⟨fun hc => absurd hc (by simp), fun hc => absurd hc (by simp),
        fun hc => absurd hc (by simp), fun _ => ⟨?_, rfl⟩⟩
      rw [congrFun hdn e.id]
      exact upd_same _ _ _
  · intro hk
    refine ⟨?_, ?_, ?_, ?_⟩
    · intro hgt hcnt
      rw [transition_checksFrom m s e hk]
      exact checksFrom_high_reemit m e _ _ hgt hcnt
    · intro hng hlt hcnt
      rw [transition_checksFrom m s e hk]
      exact checksFrom_low_reemit m e _ _ hng hlt hcnt
    · intro p hng hnl hp hp0 hd hcnt
      rw [transition_checksFrom m s e hk, hp]
      exact checksFrom_rising_reemit m e p _ hng hnl hp0 hd hcnt
    · intro p hδ hng hnl hp hp0 hd hcnt
      rw [transition_checksFrom m s e hk, hp]
      exact checksFrom_falling_reemit m e p _ hδ hng hnl hp0 hd hcnt

/-- Counterexample to claim C3 as stated.  With thresholds
`(10, 100, Δ = 1, maxUnsafe = 0)`, the readings `50, 52` make the second
reading emit a rising violation (streak 1, `prev = 52`).  The third reading
`150` again violates the rising condition (`150 - 52 > Δ`, `prev` truthy)
and no reset condition arrived in between — yet the monitor emits a *high*
violation and the rising streak stays at 1, because the high check fires
first and stops the reading.  So "every subsequent consecutive reading
violating the same condition emits another violation with a streak count
one larger" fails. -/
theorem rising_violation_preempted :
    (runLog mA PressureState.initial [ev "P1" 50, ev "P1" 52])
      = [none, some ⟨"P1", Cond.rising, 1⟩] ∧
    (run mA PressureState.initial [ev "P1" 50, ev "P1" 52]).prev_value "P1"
      = some 52 ∧
    ((150 : ℚ) - 52 > mA.MAX_DELTA) ∧
    (run mA PressureState.initial [ev "P1" 50, ev "P1" 52]).up_counts "P1" = 1 ∧
    (transition mA (run mA PressureState.initial [ev "P1" 50, ev "P1" 52])
        (ev "P1" 150)).2 = some ⟨"P1", Cond.high, 1⟩ ∧
    (transition mA (run mA PressureState.initial [ev "P1" 50, ev "P1" 52])
        (ev "P1" 150)).1.up_counts "P1" = 1 := by
  norm_num [run, runLog, transition, highCheck, lowCheck, risingCheck,
    fallingCheck, stabilityCheck, safeBandCheck, andThen, upd, monitoredKind,
    mA, mkPressure, ev, PressureState.initial]

/-- Witness for `violation_no_reset_reemits`: after two too-high readings
(streak 2 > `MAX_UNSAFE` = 1, so a violation was just emitted and not
reset), a third too-high reading re-emits with streak 3. -/
theorem violation_no_reset_reemits_witness :
    (transition mB (run mB PressureState.initial [ev "P1" 150, ev "P1" 150])
        (ev "P1" 150)).2
      = some ⟨"P1", Cond.high,
          (run mB PressureState.initial
            [ev "P1" 150, ev "P1" 150]).high_counts "P1" + 1⟩ ∧
    (run mB PressureState.initial
        [ev "P1" 150, ev "P1" 150]).high_counts "P1" + 1 = 3 := by
  constructor
  · exact ((violation_no_reset_reemits mB
      (run mB PressureState.initial [ev "P1" 150, ev "P1" 150])
      (ev "P1" 150)).2 rfl).1 (by decide)
      (by norm_num [run, transition, highCheck, lowCheck, risingCheck,
        fallingCheck, stabilityCheck, safeBandCheck, andThen, upd,
        monitoredKind, mB, mkPressure, ev, PressureState.initial])
  · norm_num [run, transition, highCheck, lowCheck, risingCheck,
      fallingCheck, stabilityCheck, safeBandCheck, andThen, upd,
      monitoredKind, mB, mkPressure, ev, PressureState.initial]

/-- If the six blocks emit nothing although the rising guard holds (with a
nonnegative `MAX_DELTA`), then the rising block incremented the up-streak
within the tolerance and reset the down-streak. -/
theorem checksFrom_none_risingInc (m : Pressure) (e : Event) (p : ℚ)
    (t : PressureState) (hδ : 0 ≤ m.MAX_DELTA) (hp0 : p ≠ 0)
    (hd : e.valore - p > m.MAX_DELTA)
    (hv : (checksFrom m e (some p) t).2 = none) :
    (checksFrom m e (some p) t).1.up_counts e.id = t.up_counts e.id + 1 ∧
    t.up_counts e.id + 1 ≤ m.MAX_UNSAFE ∧
    (checksFrom m e (some p) t).1.down_counts e.id = 0 := by
  rw [checksFrom] at hv ⊢
  obtain ⟨hc1, he1⟩ := andThen_none_inv hv
  rw [he1] at hv ⊢
  obtain ⟨hc2, he2⟩ := andThen_none_inv hv
  rw [he2] at hv ⊢
  obtain ⟨hc3, he3⟩ := andThen_none_inv hv
  rw [he3] at hv ⊢
  have hu2up : (lowCheck m e (highCheck m e t).1).1.up_counts e.id
      = t.up_counts e.id :=
    (congrFun (lowCheck_rate m e _).1 e.id).trans
      (congrFun (highCheck_rate m e t).1 e.id)
  rcases risingCheck_none_inv m e (some p) _ hc3 with ⟨heq, hno⟩ |
    ⟨q, hq, hq0, hqd, hbnd, heq⟩
  · exact absurd hd (hno p rfl hp0)
  · have hskip4 : ∀ u, fallingCheck m e (some p) u = (u, none) := by
      intro u
      refine fallingCheck_skip m e p u ?_
      rintro ⟨-, hc⟩
      linarith
    have hskip5 : ∀ u, stabilityCheck m e (some p) u = (u, none) := by
      intro u
      refine stabilityCheck_skip m e p u ?_
      rintro ⟨-, hc⟩
      have habs : e.valore - p ≤ m.MAX_DELTA := le_trans (le_abs_self _) hc
      linarith
    have hsup : ∀ u, (safeBandCheck m e u).1.up_counts e.id = u.up_counts e.id :=
      fun u => congrFun (safeBandCheck_rate m e u).1 e.id
    have hsdn : ∀ u, (safeBandCheck m e u).1.down_counts e.id = u.down_counts e.id :=
      fun u => congrFun (safeBandCheck_rate m e u).2 e.id
    simp only [heq, hskip4, hskip5, andThen_none, hsup, hsdn]
    rw [hu2up] at hbnd
    refine ⟨?_, hbnd, ?_⟩
    · rw [upd_same, hu2up]
    · exact upd_same _ _ _

/-- Claim C4, amended: For a filtered reading with a *truthy* stored previous
value `p` (present and nonzero — `0.0` is Python-falsy, see
`prevZero_rising_not_incremented`), with `v - p > MAX_DELTA`, a nonnegative
`MAX_DELTA`, and neither the high nor the low check emitting first, the
rising streak is incremented by 1; if the incremented streak exceeds
`MAX_UNSAFE` a rising violation is emitted (and the falling streak is left
alone), otherwise no violation is emitted and the falling streak is reset
to 0. -/
theorem rising_step_amended (m : Pressure) (s : PressureState) (e : Event)
    (p : ℚ) (hk : e.tipoGrandezza = monitoredKind) (hδ : 0 ≤ m.MAX_DELTA)
    (hp : s.prev_value e.id = some p) (hp0 : p ≠ 0)
    (hd : e.valore - p > m.MAX_DELTA)
    (hnh : ¬ (e.valore > m.HIGH ∧ m.MAX_UNSAFE ≤ s.high_counts e.id))
    (hnl : ¬ (e.valore < m.LOW ∧ m.MAX_UNSAFE <
      (if e.valore > m.HIGH then 0 else s.low_counts e.id) + 1)) :
    (transition m s e).1.up_counts e.id = s.up_counts e.id + 1 ∧
    (m.MAX_UNSAFE < s.up_counts e.id + 1 →
      (transition m s e).2 = some ⟨e.id, Cond.rising, s.up_counts e.id + 1⟩ ∧
      (transition m s e).1.down_counts e.id = s.down_counts e.id) ∧
    (s.up_counts e.id + 1 ≤ m.MAX_UNSAFE →
      (transition m s e).2 = none ∧
      (transition m s e).1.down_counts e.id = 0) := by
  rw [transition_checksFrom m s e hk, hp]
  rcases ho : (checksFrom m e (some p)
      { s with prev_value := upd s.prev_value e.id (some e.valore) }).2
    with _ | v
  · obtain ⟨hup, hbnd, hdn⟩ := checksFrom_none_risingInc m e p _ hδ hp0 hd ho
    have hbnd' : s.up_counts e.id + 1 ≤ m.MAX_UNSAFE := hbnd
    exact ⟨hup, fun hcnt => absurd hbnd' (by omega), fun _ => ⟨rfl, hdn⟩⟩
  · rcases checksFrom_some_inv m e (some p) _ v ho with
      ⟨hveq, hgt, hb, hst⟩ | ⟨hveq, hng, hlt, hb, hst⟩ |
      ⟨hveq, hg, hb, hup, hdnf, hcond⟩ | ⟨hveq, hg, hb, hdnf, hupf, hcond⟩
    · exfalso
      have hb' : s.high_counts e.id + 1 > m.MAX_UNSAFE := hb
      exact hnh ⟨hgt, by omega⟩
    · exfalso
      apply hnl
      rw [if_neg hng]
      have hb' : s.low_counts e.id + 1 > m.MAX_UNSAFE := hb
      exact ⟨hlt, by omega⟩
    · subst hveq
      have hb' : s.up_counts e.id + 1 > m.MAX_UNSAFE := hb
      refine ⟨?_, fun _ => ⟨rfl, ?_⟩, fun hle => absurd hb' (by omega)⟩
      · rw [congrFun hup e.id]
        exact upd_same _ _ _
      · exact congrFun hdnf e.id
    · exfalso
      obtain ⟨q, hq, hq0, hqd⟩ := hg
      obtain rfl : p = q := by simpa using hq
      linarith

/-- Counterexample to claim C4 as stated.  The claim requires only that
`previousValue` be *present*; but when the stored previous value is exactly
`0.0`, the guard `prev and value - prev > MAX_DELTA` is false by Python
falsiness, so a jump of `100` (far above `MAX_DELTA = 1`) does not increment
`risingStreak` — it stays `0` instead of becoming `1`. -/
theorem prevZero_rising_not_incremented :
    (run mC PressureState.initial [ev "P1" 0]).prev_value "P1" = some 0 ∧
    ((100 : ℚ) - 0 > mC.MAX_DELTA) ∧
    (run mC PressureState.initial [ev "P1" 0]).up_counts "P1" = 0 ∧
    (transition mC (run mC PressureState.initial [ev "P1" 0])
        (ev "P1" 100)).1.up_counts "P1" = 0 := by
  norm_num [run, transition, highCheck, lowCheck, risingCheck, fallingCheck,
    stabilityCheck, safeBandCheck, andThen, upd, monitoredKind, mC,
    mkPressure, ev, PressureState.initial]

/-- Witness for `rising_step_amended`: after a reading of `20`, a reading of
`22` (delta `2 > 1`) increments the rising streak to 1 and, with
`MAX_UNSAFE = 0`, emits a rising violation of streak 1. -/
theorem rising_step_amended_witness :
    (transition mA (run mA PressureState.initial [ev "P1" 20])
        (ev "P1" 22)).1.up_counts "P1"
      = (run mA PressureState.initial [ev "P1" 20]).up_counts "P1" + 1 ∧
    (transition mA (run mA PressureState.initial [ev "P1" 20])
        (ev "P1" 22)).2
      = some ⟨"P1", Cond.rising,
          (run mA PressureState.initial [ev "P1" 20]).up_counts "P1" + 1⟩ := by
  have h := rising_step_amended mA
    (run mA PressureState.initial [ev "P1" 20]) (ev "P1" 22) 20 rfl
    (by decide)
    (by norm_num [run, transition, highCheck, lowCheck, risingCheck,
      fallingCheck, stabilityCheck, safeBandCheck, andThen, upd,
      monitoredKind, mA, mkPressure, ev, PressureState.initial])
    (by decide) (by norm_num [ev, mA, mkPressure])
    (by decide)
    (by decide)
  refine ⟨h.1, ?_⟩
  refine ((h.2.1 ?_).1)
  norm_num [run, transition, highCheck, lowCheck, risingCheck,
    fallingCheck, stabilityCheck, safeBandCheck, andThen, upd,
    monitoredKind, mA, mkPressure, ev, PressureState.initial]

/-- Claim C10: The five state dictionaries are class-level attributes of
`Pressure` shared by all instances (lines 9–13 of `demo.py`), and `__init__`
(lines 18–23) assigns only the four scalar thresholds — the embedding makes
this explicit by keeping the shared dictionaries in `PressureState`, which
`mkPressure` does not touch.  Concretely: after a first monitor accumulates
a high streak of 2 for `"P1"` (with `MAX_UNSAFE = 1`), a freshly constructed
second monitor with the same thresholds immediately emits on the shared
state (streak 3) although it would emit nothing from fresh state; and the
first monitor then observes the second monitor's increment (streak 4). -/
theorem class_state_shared_across_instances :
    (transition mB2 (run mB PressureState.initial
        [ev "P1" 150, ev "P1" 150]) (ev "P1" 150)).2
      = some ⟨"P1", Cond.high, 3⟩ ∧
    (transition mB2 PressureState.initial (ev "P1" 150)).2 = none ∧
    (transition mB (transition mB2 (run mB PressureState.initial
        [ev "P1" 150, ev "P1" 150]) (ev "P1" 150)).1 (ev "P1" 150)).2
      = some ⟨"P1", Cond.high, 4⟩ := by
  norm_num [run, transition, highCheck, lowCheck, risingCheck, fallingCheck,
    stabilityCheck, safeBandCheck, andThen, upd, monitoredKind, mB, mB2,
    mkPressure, ev, PressureState.initial]

/-- Claim C5: A filtered reading whose value is exactly `LOW` or exactly
`HIGH` satisfies neither the too-high guard (`> HIGH`), the too-low guard
(`< LOW`), nor the safe-band guard (strict `LOW < v < HIGH`), so both level
streak dictionaries are left completely unchanged — neither incremented nor
reset (strict boundary behaviour of lines 31, 41 and 75 of `demo.py`). -/
theorem boundary_value_leaves_level (m : Pressure) (s : PressureState)
    (e : Event) (hk : e.tipoGrandezza = monitoredKind)
    (hlh : m.LOW ≤ m.HIGH) (hv : e.valore = m.LOW ∨ e.valore = m.HIGH) :
    (transition m s e).1.high_counts = s.high_counts ∧
    (transition m s e).1.low_counts = s.low_counts := by
  have hnh : ¬ e.valore > m.HIGH := by
    rcases hv with h | h <;> rw [h]
    · exact not_lt.mpr hlh
    · exact lt_irrefl _
  have hnl : ¬ e.valore < m.LOW := by
    rcases hv with h | h <;> rw [h]
    · exact lt_irrefl _
    · exact not_lt.mpr hlh
  have hns : ¬ (e.valore > m.LOW ∧ e.valore < m.HIGH) := by
    rcases hv with h | h <;> rw [h]
    · exact fun hc => lt_irrefl _ hc.1
    · exact fun hc => lt_irrefl _ hc.2
  have hh : ∀ t, highCheck m e t = (t, none) := fun t => highCheck_skip m e t hnh
  have hl : ∀ t, lowCheck m e t = (t, none) := fun t => lowCheck_skip m e t hnl
  have hs : ∀ t, safeBandCheck m e t = (t, none) :=
    fun t => safeBandCheck_skip m e t hns
  show sameLevel (transition m s e).1 s
  simp only [transition, hk, ne_eq, not_true_eq_false, if_false, hh, hl, hs,
    andThen_none]
  refine andThen_rel sameLevel (fun h1 h2 => sameLevel_trans h1 h2)
    (sameLevel_trans (risingCheck_level m e _ _) ⟨rfl, rfl⟩)
    (fun t => andThen_rel sameLevel (fun h1 h2 => sameLevel_trans h1 h2)
      (fallingCheck_level m e _ t)
      (fun t => andThen_rel sameLevel (fun h1 h2 => sameLevel_trans h1 h2)
        (stabilityCheck_level m e _ t)
        (fun t => ⟨rfl, rfl⟩)))

/-- Witness for `boundary_value_leaves_level`: a reading exactly at the high
threshold of `mB` changes neither level dictionary. -/
theorem boundary_value_leaves_level_witness :
    (transition mB PressureState.initial (ev "P1" 100)).1.high_counts
        = PressureState.initial.high_counts ∧
    (transition mB PressureState.initial (ev "P1" 100)).1.low_counts
        = PressureState.initial.low_counts :=
  boundary_value_leaves_level mB PressureState.initial (ev "P1" 100) rfl
    (by decide) (Or.inr rfl)

/-- Claim C6: If all four streak counters of the reading's entity are `0` and
the value lies strictly inside the safe band, then after the evaluation both
level counters of that entity are still `0`. -/
theorem safeBand_keeps_level_zero (m : Pressure) (s : PressureState)
    (e : Event) (hk : e.tipoGrandezza = monitoredKind)
    (h0 : s.high_counts e.id = 0 ∧ s.low_counts e.id = 0 ∧
          s.up_counts e.id = 0 ∧ s.down_counts e.id = 0)
    (hb : m.LOW < e.valore ∧ e.valore < m.HIGH) :
    (transition m s e).1.high_counts e.id = 0 ∧
    (transition m s e).1.low_counts e.id = 0 := by
  have hnh : ¬ e.valore > m.HIGH := not_lt.mpr (le_of_lt hb.2)
  have hnl : ¬ e.valore < m.LOW := not_lt.mpr (le_of_lt hb.1)
  have hh : ∀ t, highCheck m e t = (t, none) := fun t => highCheck_skip m e t hnh
  have hl : ∀ t, lowCheck m e t = (t, none) := fun t => lowCheck_skip m e t hnl
  have hrise : ∀ (p : Option ℚ) t, levelZeroAt e.id t →
      levelZeroAt e.id ((risingCheck m e p t).1) := by
    intro p t ht
    have h := risingCheck_level m e p t
    exact ⟨(congrFun h.1 e.id).trans ht.1, (congrFun h.2 e.id).trans ht.2⟩
  have hfall : ∀ (p : Option ℚ) t, levelZeroAt e.id t →
      levelZeroAt e.id ((fallingCheck m e p t).1) := by
    intro p t ht
    have h := fallingCheck_level m e p t
    exact ⟨(congrFun h.1 e.id).trans ht.1, (congrFun h.2 e.id).trans ht.2⟩
  have hstab : ∀ (p : Option ℚ) t, levelZeroAt e.id t →
      levelZeroAt e.id ((stabilityCheck m e p t).1) := by
    intro p t ht
    have h := stabilityCheck_level m e p t
    exact ⟨(congrFun h.1 e.id).trans ht.1, (congrFun h.2 e.id).trans ht.2⟩
  have hsafe : ∀ t, levelZeroAt e.id ((safeBandCheck m e t).1) := by
    intro t
    rw [safeBandCheck_fire m e t ⟨hb.1, hb.2⟩]
    exact ⟨upd_same _ _ _, upd_same _ _ _⟩
  show levelZeroAt e.id (transition m s e).1
  simp only [transition, hk, ne_eq, not_true_eq_false, if_false, hh, hl,
    andThen_none]
  refine andThen_inv (levelZeroAt e.id) (hrise _ _ ⟨h0.1, h0.2.1⟩)
    (fun t ht => andThen_inv (levelZeroAt e.id) (hfall _ t ht)
      (fun t ht => andThen_inv (levelZeroAt e.id) (hstab _ t ht)
        (fun t _ => hsafe t)))

/-- Witness for `safeBand_keeps_level_zero`: an in-band reading on a fresh
state leaves both level counters at `0`. -/
theorem safeBand_keeps_level_zero_witness :
    (transition mB PressureState.initial (ev "P1" 50)).1.high_counts "P1" = 0 ∧
    (transition mB PressureState.initial (ev "P1" 50)).1.low_counts "P1" = 0 :=
  safeBand_keeps_level_zero mB PressureState.initial (ev "P1" 50) rfl
    ⟨rfl, rfl, rfl, rfl⟩ (by decide)

/-- Claim C9: When the stored previous value of the reading's entity is exactly
`0.0`, the guards of the rising check, the falling check and the stability
reset — written `prev and ...` in lines 52, 61 and 70 of `demo.py` — fail by
Python falsiness of `0.0`, so the whole evaluation behaves exactly as if no
previous value existed, and in particular both rate dictionaries are left
unchanged. -/
theorem prevZero_disables_rate_checks (m : Pressure) (s : PressureState)
    (e : Event) (hk : e.tipoGrandezza = monitoredKind)
    (hp : s.prev_value e.id = some 0) :
    transition m s e
      = transition m { s with prev_value := upd s.prev_value e.id none } e ∧
    (transition m s e).1.up_counts = s.up_counts ∧
    (transition m s e).1.down_counts = s.down_counts := by
  have hr0 : ∀ t, risingCheck m e (some 0) t = (t, none) :=
    fun t => risingCheck_skip m e 0 t (by simp)
  have hf0 : ∀ t, fallingCheck m e (some 0) t = (t, none) :=
    fun t => fallingCheck_skip m e 0 t (by simp)
  have hs0 : ∀ t, stabilityCheck m e (some 0) t = (t, none) :=
    fun t => stabilityCheck_skip m e 0 t (by simp)
  refine ⟨?_, ?_⟩
  · simp only [transition, hk, ne_eq, not_true_eq_false, if_false, hp,
      upd_same, upd_upd, hr0, hf0, hs0, risingCheck_none, fallingCheck_none,
      stabilityCheck_none, andThen_none]
  · show sameRate (transition m s e).1 s
    simp only [transition, hk, ne_eq, not_true_eq_false, if_false, hp,
      hr0, hf0, hs0, andThen_none]
    refine andThen_rel sameRate (fun h1 h2 => sameRate_trans h1 h2)
      (sameRate_trans (highCheck_rate m e _) ⟨rfl, rfl⟩)
      (fun t => andThen_rel sameRate (fun h1 h2 => sameRate_trans h1 h2)
        (lowCheck_rate m e t)
        (fun t => safeBandCheck_rate m e t))

/-- Witness for `prevZero_disables_rate_checks`: after a reading of value
`0`, a jump far beyond `MAX_DELTA` leaves both rate dictionaries unchanged. -/
theorem prevZero_disables_rate_checks_witness :
    (run mC PressureState.initial [ev "P1" 0]).prev_value "P1" = some 0 ∧
    (transition mC (run mC PressureState.initial [ev "P1" 0])
        (ev "P1" 100)).1.up_counts
      = (run mC PressureState.initial [ev "P1" 0]).up_counts ∧
    (transition mC (run mC PressureState.initial [ev "P1" 0])
        (ev "P1" 100)).1.down_counts
      = (run mC PressureState.initial [ev "P1" 0]).down_counts := by
  have hp : (run mC PressureState.initial [ev "P1" 0]).prev_value "P1"
      = some 0 := by
    norm_num [run, transition, highCheck, lowCheck, risingCheck, fallingCheck,
      stabilityCheck, safeBandCheck, andThen, upd, monitoredKind, mC,
      mkPressure, ev, PressureState.initial]
  have h := prevZero_disables_rate_checks mC
    (run mC PressureState.initial [ev "P1" 0]) (ev "P1" 100) rfl hp
  exact ⟨hp, h.2.1, h.2.2⟩
